import Mathlib

/-!
Verification development for the `bevy_sprite_ex` repository: ordered,
blend-mode-aware 2D sprites with rectangular alpha masks, and the
extraction / mask-association / batching / instance-packing pipeline that
turns a frame's sprites into GPU draw batches.

The development is a shallow embedding of the source:
  - `src/sprite.rs`        (`SpriteEx`, `BlendMode`)
  - `src/sprite_mask.rs`   (`SpriteMask`)
  - `src/render/mod.rs`    (extraction, queueing, batching, instance packing)

Conventions used throughout:
  - `f32` values are embedded as exact rationals (`ℚ`); the pipeline performs
    only arithmetic whose algebraic form is what the claims are about.
  - `AssetId<Image>` is embedded as `Nat`; the distinguished sentinel
    `AssetId::invalid()` is embedded as `none` of an `Option Nat`
    (a real image id is `some n`).
  - `Entity` is embedded as `Nat` (stable entity identity).
  - Bevy container types (`EntityHashMap`, `RenderAssets`) are embedded as
    association lists; iteration order of a hash map is unspecified in the
    source, so the embedding's list order stands for one fixed iteration
    order, exactly as the spec's "(unspecified/container) order".
  - Fallible operations (the `batches.last_mut().unwrap()` in the batching
    scan, which can panic on an empty batch list) are embedded in `Option`,
    with `none` standing for the panic.
-/

namespace BevySpriteEx

/-- Two-component `f32` vector (`bevy_math::Vec2`), components embedded as `ℚ`. -/
structure Vec2 where
  x : ℚ
  y : ℚ
deriving DecidableEq

/-- Three-component `f32` vector (`bevy_math::Vec3A`), components embedded as `ℚ`. -/
structure Vec3 where
  x : ℚ
  y : ℚ
  z : ℚ
deriving DecidableEq

/-- Four-component `f32` vector (`bevy_math::Vec4`), components embedded as `ℚ`. -/
structure Vec4 where
  x : ℚ
  y : ℚ
  z : ℚ
  w : ℚ
deriving DecidableEq

/-- Componentwise negation of a `Vec2`. -/
def Vec2.neg (v : Vec2) : Vec2 := ⟨-v.x, -v.y⟩

/-- Componentwise subtraction of `Vec2`s. -/
def Vec2.sub (a b : Vec2) : Vec2 := ⟨a.x - b.x, a.y - b.y⟩

/-- Componentwise product of `Vec2`s (glam's `Mul` on vectors). -/
def Vec2.mul (a b : Vec2) : Vec2 := ⟨a.x * b.x, a.y * b.y⟩

/-- `Vec2::splat`. -/
def Vec2.splat (v : ℚ) : Vec2 := ⟨v, v⟩

/-- The zero vector (`Vec2::ZERO`). -/
def Vec2.zero : Vec2 := ⟨0, 0⟩

/-- `Vec2::extend`: append a `z` component. -/
def Vec2.extend (v : Vec2) (z : ℚ) : Vec3 := ⟨v.x, v.y, z⟩

/-- `Vec3::extend`: append a `w` component. -/
def Vec3.extend (v : Vec3) (w : ℚ) : Vec4 := ⟨v.x, v.y, v.z, w⟩

/-- Vector addition on `Vec3`. -/
def Vec3.add (a b : Vec3) : Vec3 := ⟨a.x + b.x, a.y + b.y, a.z + b.z⟩

/-- Scalar multiple of a `Vec3`. -/
def Vec3.smul (c : ℚ) (v : Vec3) : Vec3 := ⟨c * v.x, c * v.y, c * v.z⟩

/-- Componentwise negation of a `Vec3`. -/
def Vec3.neg (v : Vec3) : Vec3 := ⟨-v.x, -v.y, -v.z⟩

/-- Dot product on `Vec3`. -/
def Vec3.dot (a b : Vec3) : ℚ := a.x * b.x + a.y * b.y + a.z * b.z

/-- Cross product on `Vec3`. -/
def Vec3.cross (a b : Vec3) : Vec3 :=
  ⟨a.y * b.z - a.z * b.y, a.z * b.x - a.x * b.z, a.x * b.y - a.y * b.x⟩

/-- Column-major three-by-three `f32` matrix (`bevy_math::Mat3A`):
the three fields are the matrix columns, as in glam. -/
structure Mat3 where
  x_axis : Vec3
  y_axis : Vec3
  z_axis : Vec3
deriving DecidableEq

/-- `Mat3A::transpose`. -/
def Mat3.transpose (m : Mat3) : Mat3 :=
  ⟨⟨m.x_axis.x, m.y_axis.x, m.z_axis.x⟩,
   ⟨m.x_axis.y, m.y_axis.y, m.z_axis.y⟩,
   ⟨m.x_axis.z, m.y_axis.z, m.z_axis.z⟩⟩

/-- Matrix-vector product (`Mat3A::mul_vec3`): linear combination of columns. -/
def Mat3.mulVec (m : Mat3) (v : Vec3) : Vec3 :=
  (Vec3.smul v.x m.x_axis).add ((Vec3.smul v.y m.y_axis).add (Vec3.smul v.z m.z_axis))

/-- Matrix product (`Mat3A::mul_mat3`), columnwise. -/
def Mat3.mulMat (a b : Mat3) : Mat3 :=
  ⟨a.mulVec b.x_axis, a.mulVec b.y_axis, a.mulVec b.z_axis⟩

/-- `Mat3A::inverse`, following glam's cross-product/cofactor formulation.
On a singular matrix the source produces non-finite floats; the embedding's
division by zero produces `0`-entries instead.  No claim inspects the value
of an inverse at a singular matrix. -/
def Mat3.inverse (m : Mat3) : Mat3 :=
  let tmp0 := m.y_axis.cross m.z_axis
  let tmp1 := m.z_axis.cross m.x_axis
  let tmp2 := m.x_axis.cross m.y_axis
  let det := m.z_axis.dot tmp2
  let inv_det := 1 / det
  (Mat3.mk (Vec3.smul inv_det tmp0) (Vec3.smul inv_det tmp1) (Vec3.smul inv_det tmp2)).transpose

/-- Identity matrix (`Mat3A::IDENTITY`). -/
def Mat3.identity : Mat3 := ⟨⟨1, 0, 0⟩, ⟨0, 1, 0⟩, ⟨0, 0, 1⟩⟩

/-- Affine transform (`bevy_math::Affine3A`): a linear part and a translation.
`GlobalTransform` is embedded directly as its `affine()` value, which is the
only way the pipeline reads it (besides the depth sort key). -/
structure Affine3A where
  matrix3 : Mat3
  translation : Vec3
deriving DecidableEq

/-- Composition of affine transforms (`Affine3A::mul`):
`(a * b) v = a (b v)`. -/
def Affine3A.mul (a b : Affine3A) : Affine3A :=
  ⟨a.matrix3.mulMat b.matrix3, (a.matrix3.mulVec b.translation).add a.translation⟩

/-- `Affine3A::from_scale_rotation_translation` specialised to
`Quat::IDENTITY`, which is the only rotation the source ever passes
(`calculate_transform` in src/render/mod.rs): a diagonal scale matrix plus a
translation. -/
def Affine3A.fromScaleIdTranslation (scale : Vec3) (translation : Vec3) : Affine3A :=
  ⟨⟨⟨scale.x, 0, 0⟩, ⟨0, scale.y, 0⟩, ⟨0, 0, scale.z⟩⟩, translation⟩

/-- `Affine3A::inverse`: inverse linear part, and the negated inverse image of
the translation. -/
def Affine3A.inverse (a : Affine3A) : Affine3A :=
  let matrix3 := a.matrix3.inverse
  ⟨matrix3, (matrix3.mulVec a.translation).neg⟩

/-- Identity affine transform. -/
def Affine3A.identity : Affine3A := ⟨Mat3.identity, ⟨0, 0, 0⟩⟩

/-- Axis-aligned rectangle (`bevy_math::Rect`). -/
structure Rect where
  min : Vec2
  max : Vec2
deriving DecidableEq

/-- `Rect::size`. -/
def Rect.size (r : Rect) : Vec2 := ⟨r.max.x - r.min.x, r.max.y - r.min.y⟩

/-- Blend-mode enumeration of `src/sprite.rs` (`BlendMode`), nineteen
variants with explicit stable discriminants. -/
inductive BlendMode where
  | Normal
  | Darken
  | Multiply
  | ColorBurn
  | Lighten
  | Screen
  | ColorDodge
  | Addition
  | Overlay
  | SoftLight
  | HardLight
  | Difference
  | Exclusion
  | Subtract
  | Divide
  | Hue
  | Saturation
  | Color
  | Luminosity
deriving DecidableEq

/-- The explicit discriminant of each `BlendMode` variant, as declared in
`src/sprite.rs` and read back by `blend_mode as i32` in
`SpriteInstance::from` (src/render/mod.rs). -/
def blendModeCode : BlendMode → Int
  | .Normal => 0
  | .Darken => 10
  | .Multiply => 11
  | .ColorBurn => 12
  | .Lighten => 20
  | .Screen => 21
  | .ColorDodge => 22
  | .Addition => 23
  | .Overlay => 30
  | .SoftLight => 31
  | .HardLight => 32
  | .Difference => 40
  | .Exclusion => 41
  | .Subtract => 42
  | .Divide => 43
  | .Hue => 50
  | .Saturation => 51
  | .Color => 52
  | .Luminosity => 53

/-- All variants of `BlendMode`, in declaration order. -/
def allBlendModes : List BlendMode :=
  [.Normal, .Darken, .Multiply, .ColorBurn, .Lighten, .Screen, .ColorDodge,
   .Addition, .Overlay, .SoftLight, .HardLight, .Difference, .Exclusion,
   .Subtract, .Divide, .Hue, .Saturation, .Color, .Luminosity]

/-- Unmasked per-instance GPU record (`SpriteInstance` in src/render/mod.rs):
three rows of the transposed model transform, the color, the UV
offset/scale, the blend-mode code, and three `i32` of padding.
The source field `_padding` is named `padding` here. -/
structure SpriteInstance where
  i_model_transpose : Vec4 × Vec4 × Vec4
  i_color : Vec4
  i_uv_offset_scale : Vec4
  blend_mode : Int
  padding : Int × Int × Int
deriving DecidableEq

/-- `SpriteInstance::from`: build the unmasked instance record from an affine
transform, a linear-RGBA color (already a four-component vector), a UV
offset/scale and a blend mode.  The `Color → LinearRgba → [f32; 4]`
conversion of the source is external (`bevy_color`); colors are embedded
directly as their linear-RGBA component vector. -/
def SpriteInstance.build (transform : Affine3A) (color : Vec4)
    (uv_offset_scale : Vec4) (blend_mode : BlendMode) : SpriteInstance :=
  let transpose_model_3x3 := transform.matrix3.transpose
  { i_model_transpose :=
      (transpose_model_3x3.x_axis.extend transform.translation.x,
       transpose_model_3x3.y_axis.extend transform.translation.y,
       transpose_model_3x3.z_axis.extend transform.translation.z),
    i_color := color,
    i_uv_offset_scale := uv_offset_scale,
    blend_mode := blendModeCode blend_mode,
    padding := (0, 0, 0) }

/-- Masked per-instance GPU record (`MaskedSpriteInstance` in
src/render/mod.rs): the unmasked record followed by three rows of the
transposed mask transform and the mask UV offset/scale. -/
structure MaskedSpriteInstance where
  sprite : SpriteInstance
  i_mask_model_transpose : Vec4 × Vec4 × Vec4
  i_mask_uv_offset_scale : Vec4
deriving DecidableEq

/-- `MaskedSpriteInstance::from`. -/
def MaskedSpriteInstance.build (sprite_instance : SpriteInstance)
    (mask_transform : Affine3A) (mask_uv_offset_scale : Vec4) : MaskedSpriteInstance :=
  let mask_transpose_model_3x3 := mask_transform.matrix3.transpose
  { sprite := sprite_instance,
    i_mask_model_transpose :=
      (mask_transpose_model_3x3.x_axis.extend mask_transform.translation.x,
       mask_transpose_model_3x3.y_axis.extend mask_transform.translation.y,
       mask_transpose_model_3x3.z_axis.extend mask_transform.translation.z),
    i_mask_uv_offset_scale := mask_uv_offset_scale }

/-- `calculate_transform` (src/render/mod.rs lines 454-470): world-space quad
transform of a sprite or mask from the image size, the optional custom
size, the optional crop rect, the entity's world transform and the anchor. -/
def calculate_transform (image_size : Vec2) (custom_size : Option Vec2)
    (rect : Option Rect) (transform : Affine3A) (anchor : Vec2) : Affine3A :=
  let quad_size := custom_size.getD ((rect.map Rect.size).getD image_size)
  transform.mul
    (Affine3A.fromScaleIdTranslation (quad_size.extend 1)
      ((quad_size.mul ((anchor.neg).sub (Vec2.splat (1 / 2)))).extend 0))

/-- `calculate_uv_offset_scale` (src/render/mod.rs lines 472-504): UV
offset/scale from the image size, the optional crop rect and the two flip
flags.  A flip on an axis performs `offset += scale; scale = -scale` on that
axis. -/
def calculate_uv_offset_scale (image_size : Vec2) (rect : Option Rect)
    (flip_x flip_y : Bool) : Vec4 :=
  let uv_offset_scale : Vec4 :=
    match rect with
    | some rect =>
      let rect_size := rect.size
      ⟨rect.min.x / image_size.x, rect.max.y / image_size.y,
       rect_size.x / image_size.x, -(rect_size.y / image_size.y)⟩
    | none => ⟨0, 1, 1, -1⟩
  let uv_offset_scale :=
    if flip_x then
      { uv_offset_scale with
        x := uv_offset_scale.x + uv_offset_scale.z, z := -uv_offset_scale.z }
    else uv_offset_scale
  if flip_y then
    { uv_offset_scale with
      y := uv_offset_scale.y + uv_offset_scale.w, w := -uv_offset_scale.w }
  else uv_offset_scale

/-- The `offset.x += scale.x; scale.x = -scale.x` remapping that
`calculate_uv_offset_scale` applies when `flip_x` is set. -/
def flipXuv (v : Vec4) : Vec4 := { v with x := v.x + v.z, z := -v.z }

/-- The `offset.y += scale.y; scale.y = -scale.y` remapping that
`calculate_uv_offset_scale` applies when `flip_y` is set. -/
def flipYuv (v : Vec4) : Vec4 := { v with y := v.y + v.w, w := -v.w }

/-- Embedded `wgpu` vertex formats used by the sprite pipeline's
per-instance vertex buffer layout (`SpriteExPipeline::specialize`). -/
inductive VertexFormat where
  | Float32x4
  | Sint32
  | Sint32x3
deriving DecidableEq

/-- Byte size of each vertex format. -/
def VertexFormat.byteSize : VertexFormat → Nat
  | .Float32x4 => 16
  | .Sint32 => 4
  | .Sint32x3 => 12

/-- One per-instance vertex attribute (`wgpu::VertexAttribute`). -/
structure VertexAttribute where
  format : VertexFormat
  offset : Nat
  shader_location : Nat
deriving DecidableEq

/-- Per-instance vertex buffer layout (`wgpu::VertexBufferLayout`, instance
step mode). -/
structure VertexBufferLayout where
  array_stride : Nat
  attributes : List VertexAttribute
deriving DecidableEq

/-- The `instance_rate_vertex_buffer_layout` built by
`SpriteExPipeline::specialize` (src/render/mod.rs lines 257-339): a 96-byte
stride and seven attributes, extended by 64 bytes and four further
attributes when the `MASK` pipeline variant is enabled. -/
def instance_rate_vertex_buffer_layout (mask_enable : Bool) : VertexBufferLayout :=
  let array_stride : Nat := 96
  let attributes : List VertexAttribute :=
    [⟨.Float32x4, 0, 0⟩,
     ⟨.Float32x4, 16, 1⟩,
     ⟨.Float32x4, 32, 2⟩,
     ⟨.Float32x4, 48, 3⟩,
     ⟨.Float32x4, 64, 4⟩,
     ⟨.Sint32, 80, 5⟩,
     ⟨.Sint32x3, 84, 6⟩]
  if mask_enable then
    { array_stride := array_stride + 64,
      attributes := attributes ++
        [⟨.Float32x4, 96, 7⟩,
         ⟨.Float32x4, 112, 8⟩,
         ⟨.Float32x4, 128, 9⟩,
         ⟨.Float32x4, 144, 10⟩] }
  else
    { array_stride := array_stride, attributes := attributes }

/-- A vertex attribute list is packed from a starting offset when each
attribute starts exactly at the end of the previous one. -/
def attributesPacked : Nat → List VertexAttribute → Bool
  | _, [] => true
  | o, a :: rest => a.offset == o && attributesPacked (o + a.format.byteSize) rest

/-- Total byte size of a packed attribute list starting at a given offset. -/
def attributesEnd : Nat → List VertexAttribute → Nat
  | o, [] => o
  | _, a :: rest => attributesEnd (a.offset + a.format.byteSize) rest

/-- The `SpriteEx` component (src/sprite.rs lines 13-31).  `Color` is
embedded as its linear-RGBA component vector, `Anchor` as its `as_vec()`
value, `order` (a `u32`) as `Nat`. -/
structure SpriteEx where
  color : Vec4
  flip_x : Bool
  flip_y : Bool
  custom_size : Option Vec2
  rect : Option Rect
  anchor : Vec2
  blend_mode : BlendMode
  order : Nat
deriving DecidableEq

/-- The `SpriteMask` component exactly as declared in src/sprite_mask.rs
lines 12-25: flip flags, optional custom size, optional crop rect and an
anchor.  The declaration contains no `range_start`/`range_end` fields, even
though `extract_sprites` (src/render/mod.rs lines 605-606) reads them; see
the claim C10 development below. -/
structure SpriteMask where
  flip_x : Bool
  flip_y : Bool
  custom_size : Option Vec2
  rect : Option Rect
  anchor : Vec2
deriving DecidableEq

/-- Field names of the `SpriteMask` declaration in src/sprite_mask.rs. -/
def spriteMaskDeclaredFields : List String :=
  ["flip_x", "flip_y", "custom_size", "rect", "anchor"]

/-- Field names that `extract_sprites` (src/render/mod.rs lines 588-609)
reads from the `SpriteMask` component it queries. -/
def spriteMaskFieldsReadByExtract : List String :=
  ["rect", "custom_size", "flip_x", "flip_y", "anchor", "range_start", "range_end"]

/-- Modelled from the spec: the mask component as `extract_sprites`
(src/render/mod.rs lines 588-609) requires it.  It is the declared
`SpriteMask` plus the inclusive applicability range that the spec gives the
Mask entity state ("a range `[range_start, range_end]` (inclusive, unsigned
integers)") and that the extraction code reads, although the declaration in
src/sprite_mask.rs is missing those two fields. -/
structure SpriteMaskInput where
  flip_x : Bool
  flip_y : Bool
  custom_size : Option Vec2
  rect : Option Rect
  anchor : Vec2
  range_start : Nat
  range_end : Nat
deriving DecidableEq

/-- Per-frame extracted sprite snapshot (`ExtractedSprite`,
src/render/mod.rs lines 386-405).  `GlobalTransform` is embedded as its
affine value. -/
structure ExtractedSprite where
  transform : Affine3A
  color : Vec4
  rect : Option Rect
  custom_size : Option Vec2
  image_handle_id : Nat
  flip_x : Bool
  flip_y : Bool
  anchor : Vec2
  original_entity : Option Nat
  blend_mode : BlendMode
  order : Nat
deriving DecidableEq

/-- `ExtractedSprite::calculate_transform` (src/render/mod.rs lines 408-416). -/
def ExtractedSprite.calcTransform (s : ExtractedSprite) (image_size : Vec2) : Affine3A :=
  calculate_transform image_size s.custom_size s.rect s.transform s.anchor

/-- `ExtractedSprite::calculate_uv_offset_scale` (lines 417-419). -/
def ExtractedSprite.calcUvOffsetScale (s : ExtractedSprite) (image_size : Vec2) : Vec4 :=
  calculate_uv_offset_scale image_size s.rect s.flip_x s.flip_y

/-- Per-frame extracted mask snapshot (`ExtractedSpriteMask`,
src/render/mod.rs lines 422-437), including the inclusive applicability
range. -/
structure ExtractedSpriteMask where
  transform : Affine3A
  rect : Option Rect
  custom_size : Option Vec2
  image_handle_id : Nat
  flip_x : Bool
  flip_y : Bool
  anchor : Vec2
  range_start : Nat
  range_end : Nat
deriving DecidableEq

/-- `ExtractedSpriteMask::calculate_transform` (lines 439-448). -/
def ExtractedSpriteMask.calcTransform (m : ExtractedSpriteMask) (image_size : Vec2) : Affine3A :=
  calculate_transform image_size m.custom_size m.rect m.transform m.anchor

/-- `ExtractedSpriteMask::calculate_uv_offset_scale` (lines 449-451). -/
def ExtractedSpriteMask.calcUvOffsetScale (m : ExtractedSpriteMask) (image_size : Vec2) : Vec4 :=
  calculate_uv_offset_scale image_size m.rect m.flip_x m.flip_y

/-- The `ExtractedSprites` resource (src/render/mod.rs lines 506-511): the
two per-frame entity-keyed mappings plus a counter.  `EntityHashMap` is
embedded as an association list; its unspecified iteration order is the
list order. -/
structure ExtractedSprites where
  sprites : List (Nat × ExtractedSprite)
  masks : List (Nat × ExtractedSpriteMask)
  mask_uniform_count : Nat
deriving DecidableEq

/-- `ExtractedSprites::clear` (lines 513-519): clear both mappings and reset
the counter. -/
def ExtractedSprites.clear (_ : ExtractedSprites) : ExtractedSprites :=
  { sprites := [], masks := [], mask_uniform_count := 0 }

/-- Association-list lookup, standing for `EntityHashMap::get`. -/
def lookupEntity {α : Type} (l : List (Nat × α)) (e : Nat) : Option α :=
  (l.find? (fun p => p.1 == e)).map (·.2)

/-- One row of the sprite extraction query: entity, computed view
visibility, the `SpriteEx` component, the world transform and the image
handle (its `AssetId`, embedded as `Nat`). -/
structure SpriteQueryRow where
  entity : Nat
  view_visibility : Bool
  sprite : SpriteEx
  transform : Affine3A
  handle : Nat
deriving DecidableEq

/-- One row of the mask extraction query. -/
structure SpriteMaskQueryRow where
  entity : Nat
  view_visibility : Bool
  sprite_mask : SpriteMaskInput
  transform : Affine3A
  handle : Nat
deriving DecidableEq

/-- The `ExtractedSprite` that `extract_sprites` inserts for one visible
sprite row (src/render/mod.rs lines 569-585). -/
def extractedSpriteOfRow (r : SpriteQueryRow) : ExtractedSprite :=
  { color := r.sprite.color,
    transform := r.transform,
    rect := r.sprite.rect,
    custom_size := r.sprite.custom_size,
    flip_x := r.sprite.flip_x,
    flip_y := r.sprite.flip_y,
    image_handle_id := r.handle,
    anchor := r.sprite.anchor,
    original_entity := none,
    blend_mode := r.sprite.blend_mode,
    order := r.sprite.order }

/-- The `ExtractedSpriteMask` that `extract_sprites` inserts for one visible
mask row (src/render/mod.rs lines 595-608). -/
def extractedMaskOfRow (r : SpriteMaskQueryRow) : ExtractedSpriteMask :=
  { transform := r.transform,
    rect := r.sprite_mask.rect,
    custom_size := r.sprite_mask.custom_size,
    image_handle_id := r.handle,
    flip_x := r.sprite_mask.flip_x,
    flip_y := r.sprite_mask.flip_y,
    anchor := r.sprite_mask.anchor,
    range_start := r.sprite_mask.range_start,
    range_end := r.sprite_mask.range_end }

/-- Body of the first extraction loop (src/render/mod.rs lines 561-586):
skip the row if its view-visibility flag is false, otherwise insert the
extracted sprite keyed by entity (inserts embedded as ordered appends;
query iteration yields each entity once). -/
def extractSpriteStep (acc : ExtractedSprites) (r : SpriteQueryRow) : ExtractedSprites :=
  if !r.view_visibility then acc
  else { acc with sprites := acc.sprites ++ [(r.entity, extractedSpriteOfRow r)] }

/-- Body of the second extraction loop (src/render/mod.rs lines 588-609). -/
def extractMaskStep (acc : ExtractedSprites) (r : SpriteMaskQueryRow) : ExtractedSprites :=
  if !r.view_visibility then acc
  else { acc with masks := acc.masks ++ [(r.entity, extractedMaskOfRow r)] }

/-- `extract_sprites` (src/render/mod.rs lines 538-610): clear the resource,
then run the two insertion loops over the query rows.  No image/GPU state
is consulted: rows with unresolved image references are extracted like any
other. -/
def extract_sprites (extracted_sprites : ExtractedSprites)
    (sprite_query : List SpriteQueryRow)
    (sprite_mask_query : List SpriteMaskQueryRow) : ExtractedSprites :=
  sprite_mask_query.foldl extractMaskStep
    (sprite_query.foldl extractSpriteStep extracted_sprites.clear)

/-- The sprite entries extraction produces: one per visible row, in row
order. -/
def extractedSpriteEntries (sq : List SpriteQueryRow) : List (Nat × ExtractedSprite) :=
  List.map (fun r => (r.entity, extractedSpriteOfRow r))
    (List.filter (fun r => r.view_visibility) sq)

/-- The mask entries extraction produces: one per visible row, in row
order. -/
def extractedMaskEntries (mq : List SpriteMaskQueryRow) : List (Nat × ExtractedSpriteMask) :=
  List.map (fun r => (r.entity, extractedMaskOfRow r))
    (List.filter (fun r => r.view_visibility) mq)

/-- A mask's inclusive range contains an order value. -/
def maskContains (m : ExtractedSpriteMask) (order : Nat) : Prop :=
  m.range_start ≤ order ∧ order ≤ m.range_end

instance (m : ExtractedSpriteMask) (order : Nat) : Decidable (maskContains m order) :=
  inferInstanceAs (Decidable (And _ _))

/-- First-match mask resolution of the batching scan
(`prepare_sprite_image_bind_groups`, src/render/mod.rs lines 954-963):
iterate the extracted-mask mapping and take the first mask whose inclusive
`[range_start, range_end]` contains the sprite's order, stopping at the
first match. -/
def findFirstMask (masks : List (Nat × ExtractedSpriteMask)) (order : Nat) :
    Option ExtractedSpriteMask :=
  match masks with
  | [] => none
  | (_, extracted_sprite_mask) :: rest =>
    if maskContains extracted_sprite_mask order then some extracted_sprite_mask
    else findFirstMask rest order

/-- The `enable_mask` loop of `queue_sprites` (src/render/mod.rs lines
806-815): same first-match iteration, but it only records whether some mask
applies. -/
def enableMask (masks : List (Nat × ExtractedSpriteMask)) (order : Nat) : Bool :=
  match masks with
  | [] => false
  | (_, extracted_sprite_mask) :: rest =>
    if maskContains extracted_sprite_mask order then true
    else enableMask rest order

/-- GPU-resident image data as the batching scan uses it: its pixel size
(the source reads `gpu_image.size.as_vec2()`). -/
structure GpuImage where
  size : Vec2
deriving DecidableEq

/-- `RenderAssets::<GpuImage>::get`: resolve an image id to its GPU image,
`none` when the texture is not (yet) resolvable. -/
def getGpu (gpu_images : List (Nat × GpuImage)) (id : Nat) : Option GpuImage :=
  (gpu_images.find? (fun p => p.1 == id)).map (·.2)

/-- Batch descriptor (`SpriteBatch`, src/render/mod.rs lines 715-720): image
identity (`none` embeds `AssetId::invalid()`), half-open index range into
the instance buffer, and the optional mask image identity that also selects
which of the two buffers the range indexes. -/
structure SpriteBatch where
  image_handle_id : Option Nat
  range : Nat × Nat
  mask_image_handle_id : Option Nat
deriving DecidableEq

/-- A `Transparent2d` phase item as the batching scan reads and writes it:
the entity it refers to and its batch range.  (Pipeline id, draw function
and sort key are opaque to the scan.) -/
structure PhaseItem where
  entity : Nat
  batch_range : Nat × Nat
deriving DecidableEq

/-- The `SpriteMeta` resource (src/render/mod.rs lines 683-699): the shared
index buffer and the two instance buffers. -/
structure SpriteMeta where
  sprite_index_buffer : List Nat
  sprite_instance_buffer : List SpriteInstance
  masked_sprite_instance_buffer : List MaskedSpriteInstance
deriving DecidableEq

/-- `SpriteMeta::clear` (lines 702-708): clears all three buffers, the index
buffer included. -/
def SpriteMeta.clear (_ : SpriteMeta) : SpriteMeta :=
  { sprite_index_buffer := [],
    sprite_instance_buffer := [],
    masked_sprite_instance_buffer := [] }

/-- The six constant quad indices pushed by
`prepare_sprite_image_bind_groups` (src/render/mod.rs lines 1072-1077). -/
def quadIndices : List Nat := [2, 0, 1, 1, 3, 2]

/-- The index-buffer guard at the end of `prepare_sprite_image_bind_groups`
(lines 1060-1082): when the index buffer does not hold exactly six indices
it is cleared and the six quad indices are pushed (and uploaded). -/
def write_index_buffer_if_needed (m : SpriteMeta) : SpriteMeta :=
  if m.sprite_index_buffer.length ≠ 6 then { m with sprite_index_buffer := quadIndices }
  else m

/-- Frame-wide state of `prepare_sprite_image_bind_groups`: the `SpriteMeta`
buffers, the `batches` vector (kept newest-first here; the source pushes at
the back and edits `last_mut`, the embedding conses at the front and edits
the head) and the two instance-buffer write cursors `unmasked_index` and
`masked_index`, which the source declares once per frame, outside the
per-view loop. -/
structure FrameState where
  meta : SpriteMeta
  batchesRev : List (Nat × SpriteBatch)
  unmasked_index : Nat
  masked_index : Nat
deriving DecidableEq

/-- Per-view scan state: the frame state plus the locals declared inside the
per-view loop (lines 911-917): current batch item index, image size/identity
and mask size/identity. -/
structure PhaseState where
  frame : FrameState
  items : List PhaseItem
  batch_item_index : Nat
  batch_image_size : Vec2
  batch_image_handle : Option Nat
  batch_mask_image_size : Vec2
  batch_mask_handle : Option Nat
deriving DecidableEq

/-- Extend a batch's half-open range by one (`range.end += 1`). -/
def bumpBatchEnd (b : Nat × SpriteBatch) : Nat × SpriteBatch :=
  (b.1, { b.2 with range := (b.2.range.1, b.2.range.2 + 1) })

/-- Extend a phase item's batch range by one
(`transparent_phase.items[batch_item_index].batch_range_mut().end += 1`). -/
def bumpItemRangeEnd (items : List PhaseItem) (i : Nat) : List PhaseItem :=
  match items.get? i with
  | none => items
  | some it => items.set i { it with batch_range := (it.batch_range.1, it.batch_range.2 + 1) }

/-- Lines 1030-1049 of the batching scan, common to the masked and unmasked
emission paths: when the image or mask identity changed, remember the item
index and push a fresh batch anchored at the current cursor value; then
unconditionally extend the tracked item's batch range, extend the last
batch's range and advance the cursor the entry used.  The source's
`batches.last_mut().unwrap()` panics when no batch exists; the panic is the
`none` result. -/
def finishItem (st : PhaseState) (entity : Nat) (item_index : Nat)
    (batch_image_changed batch_mask_changed : Bool)
    (mask_asset : Option Nat) (index : Nat) (masked : Bool) : Option PhaseState :=
  let st4 :=
    if batch_image_changed || batch_mask_changed then
      { st with
        batch_item_index := item_index,
        frame := { st.frame with
          batchesRev := (entity,
            { image_handle_id := st.batch_image_handle,
              range := (index, index),
              mask_image_handle_id := mask_asset }) :: st.frame.batchesRev } }
    else st
  match st4.frame.batchesRev with
  | [] => none
  | b :: bs =>
    let st5 := { st4 with
      items := bumpItemRangeEnd st4.items st4.batch_item_index,
      frame := { st4.frame with batchesRev := bumpBatchEnd b :: bs } }
    if masked then
      some { st5 with frame := { st5.frame with masked_index := st5.frame.masked_index + 1 } }
    else
      some { st5 with frame := { st5.frame with unmasked_index := st5.frame.unmasked_index + 1 } }

/-- Step 3 of the scan loop (src/render/mod.rs lines 931-952): when the
image identity changed, resolve the image's GPU texture — `none` embeds the
`continue` that skips the entry when it is unresolvable — and record the
new batch image size and identity.  (The memoized bind-group creation
touches only the GPU cache and is omitted.) -/
def imageStep (gpu_images : List (Nat × GpuImage)) (st : PhaseState)
    (extracted_sprite : ExtractedSprite) (batch_image_changed : Bool) : Option PhaseState :=
  if batch_image_changed then
    match getGpu gpu_images extracted_sprite.image_handle_id with
    | none => none
    | some gpu_image =>
      some { st with
        batch_image_size := gpu_image.size,
        batch_image_handle := some extracted_sprite.image_handle_id }
  else some st

/-- Step 4 of the scan loop (lines 966-992): when the mask identity
changed, and a mask applies, resolve the mask's GPU texture — `none` embeds
the `continue` that skips the whole entry when it is unresolvable — and
record the new batch mask size; the tracked mask identity is updated in
either non-skipping branch. -/
def maskStep (gpu_images : List (Nat × GpuImage)) (st1 : PhaseState)
    (extracted_mask : Option ExtractedSpriteMask) (mask_asset : Option Nat)
    (batch_mask_changed : Bool) : Option PhaseState :=
  if batch_mask_changed then
    match extracted_mask with
    | some extracted_mask_v =>
      match getGpu gpu_images extracted_mask_v.image_handle_id with
      | none => none
      | some gpu_image =>
        some { st1 with
          batch_mask_image_size := gpu_image.size,
          batch_mask_handle := mask_asset }
    | none => some { st1 with batch_mask_handle := mask_asset }
  else some st1

/-- Steps 5-6 of the scan loop (lines 994-1028): build the sprite's
instance record from the tracked batch image size; when a mask applies,
compose the inverse mask transform with the sprite transform and append a
masked record to the masked buffer, otherwise append the unmasked record to
the unmasked buffer.  Returns the updated state, the value of the used
cursor before its increment, and which cursor it was. -/
def emitStep (st2 : PhaseState) (extracted_sprite : ExtractedSprite)
    (extracted_mask : Option ExtractedSpriteMask) : PhaseState × Nat × Bool :=
  let sprite_transform := extracted_sprite.calcTransform st2.batch_image_size
  let sprite_uv_offset_scale := extracted_sprite.calcUvOffsetScale st2.batch_image_size
  let sprite_instance := SpriteInstance.build sprite_transform
    extracted_sprite.color sprite_uv_offset_scale extracted_sprite.blend_mode
  match extracted_mask with
  | some extracted_mask_v =>
    let mask_transform :=
      (extracted_mask_v.calcTransform st2.batch_mask_image_size).inverse.mul
        sprite_transform
    let mask_uv_offset_scale :=
      extracted_mask_v.calcUvOffsetScale st2.batch_mask_image_size
    let masked_sprite_instance := MaskedSpriteInstance.build sprite_instance
      mask_transform mask_uv_offset_scale
    ({ st2 with frame := { st2.frame with
        meta := { st2.frame.meta with
          masked_sprite_instance_buffer :=
            st2.frame.meta.masked_sprite_instance_buffer ++ [masked_sprite_instance] } } },
     st2.frame.masked_index, true)
  | none =>
    ({ st2 with frame := { st2.frame with
        meta := { st2.frame.meta with
          sprite_instance_buffer :=
            st2.frame.meta.sprite_instance_buffer ++ [sprite_instance] } } },
     st2.frame.unmasked_index, false)

/-- One iteration of the batching scan of `prepare_sprite_image_bind_groups`
(src/render/mod.rs lines 921-1050) at phase-item position `item_index`,
composed from the numbered steps above.  `some st` with an unchanged (or
bookkeeping-only) state embeds the source's `continue`; `none` embeds the
`unwrap` panic. -/
def scanItem (gpu_images : List (Nat × GpuImage)) (extracted : ExtractedSprites)
    (st : PhaseState) (item_index : Nat) : Option PhaseState :=
  match st.items.get? item_index with
  | none => some st
  | some item =>
    match lookupEntity extracted.sprites item.entity with
    | none =>
      -- a phase item that is not a sprite: invalidate the batch image handle
      -- (forcing a new batch at the next sprite) and continue
      some { st with batch_image_handle := none }
    | some extracted_sprite =>
      let batch_image_changed : Bool :=
        decide (st.batch_image_handle ≠ some extracted_sprite.image_handle_id)
      match imageStep gpu_images st extracted_sprite batch_image_changed with
      | none => some st   -- sprite texture not resolvable: skip this entry
      | some st1 =>
        let extracted_mask := findFirstMask extracted.masks extracted_sprite.order
        let mask_asset := extracted_mask.map (·.image_handle_id)
        let batch_mask_changed : Bool := decide (st1.batch_mask_handle ≠ mask_asset)
        match maskStep gpu_images st1 extracted_mask mask_asset batch_mask_changed with
        | none => some st1   -- mask texture not resolvable: skip this entry
        | some st2 =>
          match emitStep st2 extracted_sprite extracted_mask with
          | (st3, index, masked) =>
            finishItem st3 item.entity item_index batch_image_changed batch_mask_changed
              mask_asset index masked

/-- Run the batching scan over the remaining phase-item positions. -/
def scanGo (gpu_images : List (Nat × GpuImage)) (extracted : ExtractedSprites)
    (st : PhaseState) (item_index : Nat) : Nat → Option PhaseState
  | 0 => some st
  | remaining + 1 =>
    match scanItem gpu_images extracted st item_index with
    | none => none
    | some st1 => scanGo gpu_images extracted st1 (item_index + 1) remaining

/-- The per-view locals as initialised at the top of each view's pass
(src/render/mod.rs lines 911-917): item index 0, zero image sizes, an
invalid (`none`) batch image handle and no (`none`) batch mask handle.  The
frame state is whatever the previous view's pass left. -/
def phaseInit (frame : FrameState) (items : List PhaseItem) : PhaseState :=
  { frame := frame, items := items, batch_item_index := 0,
    batch_image_size := Vec2.zero, batch_image_handle := none,
    batch_mask_image_size := Vec2.zero, batch_mask_handle := none }

/-- One view's batching pass (the body of `for transparent_phase in
phases.values_mut()`, lines 910-1051): the per-view locals start from
`phaseInit`, while the frame state (buffers, batches, cursors) is carried
in from the previous view. -/
def scanPhase (gpu_images : List (Nat × GpuImage)) (extracted : ExtractedSprites)
    (frame : FrameState) (items : List PhaseItem) : Option PhaseState :=
  scanGo gpu_images extracted (phaseInit frame items) 0 items.length

/-- Fold the per-view batching pass over all views' phases, collecting the
updated item lists. -/
def prepareGo (gpu_images : List (Nat × GpuImage)) (extracted : ExtractedSprites)
    (frame : FrameState) : List (List PhaseItem) → Option (FrameState × List (List PhaseItem))
  | [] => some (frame, [])
  | items :: rest =>
    match scanPhase gpu_images extracted frame items with
    | none => none
    | some ps =>
      match prepareGo gpu_images extracted ps.frame rest with
      | none => none
      | some (fr, out) => some (fr, ps.items :: out)

/-- `prepare_sprite_image_bind_groups` (src/render/mod.rs lines 872-1086),
restricted to its batching effect: clear `SpriteMeta`, initialise the
`batches` vector and both instance cursors to zero once for the whole
frame, run every view's batching pass, then write the constant index buffer
if it does not hold exactly six indices.  (Bind-group creation and
asset-event eviction touch only the GPU bind-group caches and are omitted:
they do not influence batching state.) -/
def prepare_sprite_image_bind_groups (gpu_images : List (Nat × GpuImage))
    (extracted : ExtractedSprites) (sprite_meta : SpriteMeta)
    (phases : List (List PhaseItem)) : Option (FrameState × List (List PhaseItem)) :=
  let frame0 : FrameState :=
    { meta := sprite_meta.clear, batchesRev := [], unmasked_index := 0, masked_index := 0 }
  match prepareGo gpu_images extracted frame0 phases with
  | none => none
  | some (fr, out) =>
    some ({ fr with meta := write_index_buffer_if_needed fr.meta }, out)

/-! ### Specification-side predicates for the batching claims -/

/-- Whether a batch indexes the masked instance buffer. -/
def isMaskedBatch (b : Nat × SpriteBatch) : Bool :=
  b.2.mask_image_handle_id.isSome

/-- The ranges of the batches of one buffer (`masked` selects which), in the
order given. -/
def bufferRanges (bs : List (Nat × SpriteBatch)) (masked : Bool) : List (Nat × Nat) :=
  (bs.filter (fun b => isMaskedBatch b == masked)).map (fun b => b.2.range)

/-- `revChain lo rs hi`: read newest-first, the half-open ranges `rs` tile
the interval `[lo, hi)` consecutively — the newest range ends at `hi`, each
range starts where the next-older one ends, and the oldest starts at `lo`. -/
def revChain (lo : Nat) : List (Nat × Nat) → Nat → Prop
  | [], hi => hi = lo
  | (s, e) :: rest, hi => e = hi ∧ s ≤ e ∧ revChain lo rest s

/-- `chainFwd lo rs hi`: in production order, the half-open ranges `rs` tile
the interval `[lo, hi)` consecutively. -/
def chainFwd : Nat → List (Nat × Nat) → Nat → Prop
  | lo, [], hi => lo = hi
  | lo, (s, e) :: rest, hi => s = lo ∧ s ≤ e ∧ chainFwd e rest hi

/-- Pairwise non-overlap of half-open ranges, in the strong ordered form
each range ends no later than any later range starts. -/
def nonoverlapping (rs : List (Nat × Nat)) : Prop :=
  rs.Pairwise (fun r r' => r.2 ≤ r'.1)

/-- An index is covered by exactly one of the ranges. -/
def coversOnce (rs : List (Nat × Nat)) (k : Nat) : Prop :=
  rs.countP (fun r => decide (r.1 ≤ k ∧ k < r.2)) = 1

/-- Whether the spec counts the phase item at position `idx` as
successfully processed (1) or skipped (0): skipped entries are non-sprite
items and entries whose own sprite texture is unresolvable (the scan's
steps 1-2). -/
def stepProcessed (gpu_images : List (Nat × GpuImage)) (extracted : ExtractedSprites)
    (items : List PhaseItem) (idx : Nat) : Nat :=
  match items.get? idx with
  | none => 0
  | some item =>
    match lookupEntity extracted.sprites item.entity with
    | none => 0
    | some sp => if (getGpu gpu_images sp.image_handle_id).isSome then 1 else 0

/-- Number of entries in the phase-item window `[idx, idx + remaining)`
that the spec counts as successfully processed. -/
def claimProcessedFrom (gpu_images : List (Nat × GpuImage)) (extracted : ExtractedSprites)
    (items : List PhaseItem) : Nat → Nat → Nat
  | _, 0 => 0
  | idx, remaining + 1 =>
    stepProcessed gpu_images extracted items idx
      + claimProcessedFrom gpu_images extracted items (idx + 1) remaining

/-- The invariant of one view's batching pass, relating the current scan
state to the frame state `fr0` the pass started from: the batch list grew
by a newest-first prefix `newRev`; the new batches of each buffer tile that
buffer's cursor interval consecutively; every new batch is nonempty; before
the first push the image identity is still invalid, and afterwards the
newest batch's mask identity agrees with the tracked one; the tracked image
and mask identities only ever hold resolvable images; and each instance
buffer grew in lockstep with its cursor. -/
def ScanInv (gpu_images : List (Nat × GpuImage)) (fr0 : FrameState) (st : PhaseState) : Prop :=
  ∃ newRev,
    st.frame.batchesRev = newRev ++ fr0.batchesRev
    ∧ revChain fr0.unmasked_index (bufferRanges newRev false) st.frame.unmasked_index
    ∧ revChain fr0.masked_index (bufferRanges newRev true) st.frame.masked_index
    ∧ (∀ b ∈ newRev, b.2.range.1 < b.2.range.2)
    ∧ (match newRev with
       | [] => st.batch_image_handle = none
       | b :: _ => b.2.mask_image_handle_id = st.batch_mask_handle)
    ∧ (∀ a, st.batch_image_handle = some a → (getGpu gpu_images a).isSome = true)
    ∧ (∀ a, st.batch_mask_handle = some a → (getGpu gpu_images a).isSome = true)
    ∧ st.frame.meta.sprite_instance_buffer.length + fr0.unmasked_index
        = fr0.meta.sprite_instance_buffer.length + st.frame.unmasked_index
    ∧ st.frame.meta.masked_sprite_instance_buffer.length + fr0.masked_index
        = fr0.meta.masked_sprite_instance_buffer.length + st.frame.masked_index

/-- How the frame-wide batching state may evolve across scan steps: the
index buffer is untouched, the instance buffers only grow at the back, and
each instance buffer grows in lockstep with its write cursor. -/
def FrameEvolves (a b : FrameState) : Prop :=
  b.meta.sprite_index_buffer = a.meta.sprite_index_buffer
  ∧ (∃ l, b.meta.sprite_instance_buffer = a.meta.sprite_instance_buffer ++ l)
  ∧ (∃ l, b.meta.masked_sprite_instance_buffer = a.meta.masked_sprite_instance_buffer ++ l)
  ∧ b.meta.sprite_instance_buffer.length + a.unmasked_index
      = a.meta.sprite_instance_buffer.length + b.unmasked_index
  ∧ b.meta.masked_sprite_instance_buffer.length + a.masked_index
      = a.meta.masked_sprite_instance_buffer.length + b.masked_index

/-! ### Concrete fixtures for witnesses and counterexamples -/

/-- An extracted sprite with the given image id and order, identity
transform, white color, no crop, no custom size, centered anchor. -/
def mkSprite (img order : Nat) : ExtractedSprite :=
  { transform := Affine3A.identity, color := ⟨1, 1, 1, 1⟩, rect := none,
    custom_size := none, image_handle_id := img, flip_x := false,
    flip_y := false, anchor := Vec2.zero, original_entity := none,
    blend_mode := .Normal, order := order }

/-- An extracted mask with the given image id and inclusive range, identity
transform, no crop, no custom size, centered anchor. -/
def mkMask (img s e : Nat) : ExtractedSpriteMask :=
  { transform := Affine3A.identity, rect := none, custom_size := none,
    image_handle_id := img, flip_x := false, flip_y := false,
    anchor := Vec2.zero, range_start := s, range_end := e }

/-- A one-by-one GPU image. -/
def gpuPix : GpuImage := ⟨⟨1, 1⟩⟩

/-- The frame state at the start of `prepare_sprite_image_bind_groups`:
cleared buffers, no batches, both cursors zero. -/
def frameInit : FrameState :=
  { meta := ⟨[], [], []⟩, batchesRev := [], unmasked_index := 0, masked_index := 0 }

/-- Mask list used by the C1 witness: two masks on image 7 with overlapping
ranges `[0,3]` and `[2,8]`. -/
def maskListW : List (Nat × ExtractedSpriteMask) :=
  [(1, mkMask 7 0 3), (2, mkMask 7 2 8)]

/-- C2 counterexample scene.  Sprites: entity 1 (image 10, order 1),
entity 2 (image 20, order 2), entity 3 (image 20, order 3).  Masks, in
iteration order: image 31 with range `[2,2]` (its texture is NOT
resolvable), then image 30 with range `[1,3]` (resolvable). -/
def extractedC2 : ExtractedSprites :=
  { sprites := [(1, mkSprite 10 1), (2, mkSprite 20 2), (3, mkSprite 20 3)],
    masks := [(5, mkMask 31 2 2), (6, mkMask 30 1 3)],
    mask_uniform_count := 0 }

/-- Resolvable GPU images of the C2 counterexample: the sprite textures 10
and 20 and the mask texture 30, but not the mask texture 31. -/
def gpuC2 : List (Nat × GpuImage) := [(10, gpuPix), (20, gpuPix), (30, gpuPix)]

/-- One view's phase items for the C2 counterexample: the three sprites in
order. -/
def itemsC2 : List PhaseItem := [⟨1, (0, 0)⟩, ⟨2, (0, 0)⟩, ⟨3, (0, 0)⟩]

/-- The coverage part of claim C2 evaluated on one concrete view pass: the
pass completes, and the total length of the produced batch ranges equals
the number of entries the claim counts as successfully processed. -/
def c2CoverageHolds (gpu_images : List (Nat × GpuImage)) (extracted : ExtractedSprites)
    (items : List PhaseItem) : Bool :=
  match scanPhase gpu_images extracted frameInit items with
  | none => false
  | some ps =>
    (ps.frame.batchesRev.map (fun b => b.2.range.2 - b.2.range.1)).sum
      == claimProcessedFrom gpu_images extracted items 0 items.length

/-- C3 counterexample scene: one sprite (entity 1, image 10, order 1) whose
texture is resolvable, and one mask (image 31, range `[1,1]`) whose texture
is not resolvable. -/
def extractedC3 : ExtractedSprites :=
  { sprites := [(1, mkSprite 10 1)],
    masks := [(5, mkMask 31 1 1)],
    mask_uniform_count := 0 }

/-- Resolvable GPU images of the C3 counterexample: only the sprite
texture. -/
def gpuC3 : List (Nat × GpuImage) := [(10, gpuPix)]

/-- The single phase item of the C3 counterexample. -/
def itemsC3 : List PhaseItem := [⟨1, (0, 0)⟩]

/-- Claim C3 evaluated at the C3 scene: the entry whose applicable mask
texture is unresolvable is still emitted, as an unmasked instance. -/
def c3ClaimHolds : Bool :=
  match scanPhase gpuC3 extractedC3 frameInit itemsC3 with
  | none => false
  | some ps => ps.frame.meta.sprite_instance_buffer.length == 1

/-- C9 counterexample scene: two views, each with one sprite on the
resolvable image 10 and no masks. -/
def extractedC9 : ExtractedSprites :=
  { sprites := [(1, mkSprite 10 1), (2, mkSprite 10 2)],
    masks := [], mask_uniform_count := 0 }

/-- Resolvable GPU images of the C9 counterexample. -/
def gpuC9 : List (Nat × GpuImage) := [(10, gpuPix)]

/-- First view's phase items for the C9 counterexample. -/
def itemsC9a : List PhaseItem := [⟨1, (0, 0)⟩]

/-- Second view's phase items for the C9 counterexample. -/
def itemsC9b : List PhaseItem := [⟨2, (0, 0)⟩]

/-- Claim C9 evaluated at the C9 scene: if every view's pass started with
both cursors at zero, each view's single batch would cover indices `[0,1)`
of its buffer. -/
def c9ClaimHolds : Bool :=
  match prepare_sprite_image_bind_groups gpuC9 extractedC9 ⟨[], [], []⟩ [itemsC9a, itemsC9b] with
  | none => false
  | some (fr, _) => fr.batchesRev.reverse.map (fun b => b.2.range) == [(0, 1), (0, 1)]

/-- Whether the index-buffer guard at the end of
`prepare_sprite_image_bind_groups` fires (rebuilds the buffer) during a
frame entered with the given `SpriteMeta`. -/
def indexBufferGuardFires (gpu_images : List (Nat × GpuImage)) (extracted : ExtractedSprites)
    (sprite_meta : SpriteMeta) (phases : List (List PhaseItem)) : Bool :=
  match prepareGo gpu_images extracted
      { meta := sprite_meta.clear, batchesRev := [], unmasked_index := 0, masked_index := 0 }
      phases with
  | none => false
  | some (fr, _) => decide (fr.meta.sprite_index_buffer.length ≠ 6)

/-- A `SpriteMeta` as a frame leaves it: the index buffer holds the six
quad indices. -/
def metaAfterFirstFrame : SpriteMeta := ⟨quadIndices, [], []⟩

/-- The scan state after the C3 scene's single entry: its applicable mask's
texture being unresolvable, the entry was dropped — only the batch image
bookkeeping advanced; no instance, batch, cursor or item-range change. -/
def psC3 : PhaseState :=
  { frame := frameInit, items := itemsC3, batch_item_index := 0,
    batch_image_size := ⟨1, 1⟩, batch_image_handle := some 10,
    batch_mask_image_size := Vec2.zero, batch_mask_handle := none }

/-- The scan state after the single (sprite) item of the first C9 view's
pass: the concrete emitting step used to witness the batch-boundary part of
the amended C2. -/
def psC2w : PhaseState :=
  match scanItem gpuC9 extractedC9 (phaseInit frameInit itemsC9a) 0 with
  | some ps => ps
  | none => phaseInit frameInit itemsC9a

/-- A single non-sprite phase item (entity 99 is not an extracted sprite of
the C9 scene): used to witness the non-sprite part of the amended C2. -/
def itemsC2w : List PhaseItem := [⟨99, (0, 0)⟩]

/-! ### Theorems -/

/-- C4: with no crop rect and no flips the computed UV offset/scale is
`(0, 1, 1, -1)`; enabling the flip on an axis applies exactly the
`offset += scale; scale = -scale` remap on that axis; that remap is an
involution on every UV offset/scale vector; hence flipping x twice with no
crop rect gives back `(0, 1, 1, -1)`. -/
theorem c4_uv_flip_involution :
    (∀ image_size, calculate_uv_offset_scale image_size none false false = ⟨0, 1, 1, -1⟩)
    ∧ (∀ image_size rect flip_y,
        calculate_uv_offset_scale image_size rect true flip_y
          = flipXuv (calculate_uv_offset_scale image_size rect false flip_y))
    ∧ (∀ image_size rect flip_x,
        calculate_uv_offset_scale image_size rect flip_x true
          = flipYuv (calculate_uv_offset_scale image_size rect flip_x false))
    ∧ (∀ v, flipXuv (flipXuv v) = v)
    ∧ (∀ v, flipYuv (flipYuv v) = v)
    ∧ (∀ image_size,
        flipXuv (flipXuv (calculate_uv_offset_scale image_size none false false))
          = ⟨0, 1, 1, -1⟩) := by
  refine ⟨fun _ => rfl, ?_, ?_, ?_, ?_, ?_⟩
  · intro image_size rect flip_y
    cases flip_y <;> cases rect <;> rfl
  · intro image_size rect flip_x
    cases flip_x <;> cases rect <;> rfl
  · intro v
    cases v with
    | mk x y z w => simp [flipXuv]
  · intro v
    cases v with
    | mk x y z w => simp [flipYuv]
  · intro image_size
    show flipXuv (flipXuv ⟨0, 1, 1, -1⟩) = ⟨0, 1, 1, -1⟩
    simp [flipXuv]

/-- C5: `BlendMode` is closed with exactly nineteen variants, their integer
codes are exactly the declared discriminants, and `SpriteInstance::from`
serialises a sprite's variant code into the instance record's blend-mode
field. -/
theorem c5_blend_mode_codes :
    allBlendModes.length = 19
    ∧ allBlendModes.Nodup
    ∧ (∀ b : BlendMode, b ∈ allBlendModes)
    ∧ allBlendModes.map blendModeCode
        = [0, 10, 11, 12, 20, 21, 22, 23, 30, 31, 32, 40, 41, 42, 43, 50, 51, 52, 53]
    ∧ (∀ transform color uv_offset_scale blend_mode,
        (SpriteInstance.build transform color uv_offset_scale blend_mode).blend_mode
          = blendModeCode blend_mode) := by
  refine ⟨rfl, by decide, ?_, rfl, ?_⟩
  · intro b
    cases b <;> simp [allBlendModes]
  · intro transform color uv_offset_scale blend_mode
    rfl

/-- C6: the per-instance vertex layout produced by
`SpriteExPipeline::specialize` is a 96-byte record in the unmasked variant
and a 160-byte record in the masked variant; the attributes sit at the
exact offsets 0,16,32,48,64,80,84 (plus 96,112,128,144 when masked), have
the field sizes 3 by 16 transform rows, 16 color, 16 UV, 4 blend-mode, 12
padding (plus 3 by 16 mask rows and 16 mask UV), are packed back to back
with no gaps, and fill the stride exactly. -/
theorem c6_instance_record_layout :
    (instance_rate_vertex_buffer_layout false).array_stride = 96
    ∧ (instance_rate_vertex_buffer_layout true).array_stride = 160
    ∧ (instance_rate_vertex_buffer_layout false).attributes.map VertexAttribute.offset
        = [0, 16, 32, 48, 64, 80, 84]
    ∧ (instance_rate_vertex_buffer_layout true).attributes.map VertexAttribute.offset
        = [0, 16, 32, 48, 64, 80, 84, 96, 112, 128, 144]
    ∧ (instance_rate_vertex_buffer_layout false).attributes.map (fun a => a.format.byteSize)
        = [16, 16, 16, 16, 16, 4, 12]
    ∧ (instance_rate_vertex_buffer_layout true).attributes.map (fun a => a.format.byteSize)
        = [16, 16, 16, 16, 16, 4, 12, 16, 16, 16, 16]
    ∧ attributesPacked 0 (instance_rate_vertex_buffer_layout false).attributes = true
    ∧ attributesPacked 0 (instance_rate_vertex_buffer_layout true).attributes = true
    ∧ attributesEnd 0 (instance_rate_vertex_buffer_layout false).attributes
        = (instance_rate_vertex_buffer_layout false).array_stride
    ∧ attributesEnd 0 (instance_rate_vertex_buffer_layout true).attributes
        = (instance_rate_vertex_buffer_layout true).array_stride := by
  decide

/-- C1: mask resolution (shared by the queueing pass and the batching scan)
selects at most one mask, namely the first in iteration order whose
inclusive range contains the sprite's order; the selected mask always
contains the order; no mask is selected exactly when no mask in the
collection contains the order (so when at least one mask contains it,
exactly one — `isSome` — is selected, never zero, never two); and the
queueing loop agrees with the batching loop. -/
theorem c1_mask_resolution (masks : List (Nat × ExtractedSpriteMask)) (order : Nat) :
    (∀ m, findFirstMask masks order = some m →
        maskContains m order
        ∧ ∃ k l₁ l₂, masks = l₁ ++ (k, m) :: l₂ ∧ ∀ p ∈ l₁, ¬ maskContains p.2 order)
    ∧ ((findFirstMask masks order).isSome ↔ ∃ p ∈ masks, maskContains p.2 order)
    ∧ enableMask masks order = (findFirstMask masks order).isSome := by
  induction masks with
  | nil =>
    refine ⟨fun m hm => by simp [findFirstMask] at hm, by simp [findFirstMask], ?_⟩
    simp [findFirstMask, enableMask]
  | cons hd tl ih =>
    obtain ⟨k, mhd⟩ := hd
    obtain ⟨ih1, ih2, ih3⟩ := ih
    by_cases h : maskContains mhd order
    · refine ⟨?_, ?_, ?_⟩
      · intro m hm
        rw [findFirstMask, if_pos h] at hm
        obtain rfl : mhd = m := by injection hm
        exact ⟨h, k, [], tl, rfl, by simp⟩
      · rw [findFirstMask, if_pos h]
        simp only [Option.isSome_some]
        exact ⟨fun _ => ⟨(k, mhd), List.mem_cons_self _ _, h⟩, fun _ => trivial⟩
      · rw [enableMask, if_pos h, findFirstMask, if_pos h]
        rfl
    · refine ⟨?_, ?_, ?_⟩
      · intro m hm
        rw [findFirstMask, if_neg h] at hm
        obtain ⟨hc, k', l₁, l₂, heq, hnone⟩ := ih1 m hm
        refine ⟨hc, k', (k, mhd) :: l₁, l₂, by rw [heq]; rfl, ?_⟩
        intro p hp
        rcases List.mem_cons.mp hp with hp | hp
        · rw [hp]; exact h
        · exact hnone p hp
      · rw [findFirstMask, if_neg h, ih2]
        constructor
        · rintro ⟨p, hp, hc⟩
          exact ⟨p, List.mem_cons_of_mem _ hp, hc⟩
        · rintro ⟨p, hp, hc⟩
          rcases List.mem_cons.mp hp with hp | hp
          · rw [hp] at hc
            exact absurd hc h
          · exact ⟨p, hp, hc⟩
      · rw [enableMask, if_neg h, findFirstMask, if_neg h]
        exact ih3

/-- Witness for C1 at a concrete overlapping-mask collection: for order 5
the resolver picks the second mask (range `[2,8]`), the first (range
`[0,3]`) not containing 5; the selected mask contains the order and is the
first match. -/
theorem c1_mask_resolution_witness :
    maskContains (mkMask 7 2 8) 5
    ∧ ∃ k l₁ l₂, maskListW = l₁ ++ (k, mkMask 7 2 8) :: l₂
        ∧ ∀ p ∈ l₁, ¬ maskContains p.2 5 :=
  (c1_mask_resolution maskListW 5).1 (mkMask 7 2 8) (by decide)

/-- C10: the extraction system reads the inclusive-range fields
`range_start`/`range_end` from the queried mask component and copies them
into the per-frame `ExtractedSpriteMask` snapshot (which declares them as
unsigned integers), exactly as the claim states for the persistent Mask
state — but the `SpriteMask` declaration in src/sprite_mask.rs carries only
flip flags, optional custom size, optional crop rect and anchor, with no
range fields at all, so the declared component contradicts its own reader
`extract_sprites`. -/
theorem c10_mask_range_fields :
    "range_start" ∈ spriteMaskFieldsReadByExtract
    ∧ "range_end" ∈ spriteMaskFieldsReadByExtract
    ∧ "range_start" ∉ spriteMaskDeclaredFields
    ∧ "range_end" ∉ spriteMaskDeclaredFields
    ∧ (∀ r : SpriteMaskQueryRow,
        (extractedMaskOfRow r).range_start = r.sprite_mask.range_start
        ∧ (extractedMaskOfRow r).range_end = r.sprite_mask.range_end) := by
  refine ⟨by decide, by decide, by decide, by decide, fun r => ⟨rfl, rfl⟩⟩

/-- Characterisation of the sprite-insertion fold of `extract_sprites`. -/
theorem extract_fold_sprites (sq : List SpriteQueryRow) (acc : ExtractedSprites) :
    sq.foldl extractSpriteStep acc
      = { acc with sprites := acc.sprites ++ extractedSpriteEntries sq } := by
  induction sq generalizing acc with
  | nil => simp [extractedSpriteEntries]
  | cons r rs ih =>
    rw [List.foldl_cons, ih]
    cases hv : r.view_visibility with
    | false =>
      simp [extractSpriteStep, extractedSpriteEntries, hv, List.filter_cons]
    | true =>
      simp [extractSpriteStep, extractedSpriteEntries, hv, List.filter_cons]

/-- Characterisation of the mask-insertion fold of `extract_sprites`. -/
theorem extract_fold_masks (mq : List SpriteMaskQueryRow) (acc : ExtractedSprites) :
    mq.foldl extractMaskStep acc
      = { acc with masks := acc.masks ++ extractedMaskEntries mq } := by
  induction mq generalizing acc with
  | nil => simp [extractedMaskEntries]
  | cons r rs ih =>
    rw [List.foldl_cons, ih]
    cases hv : r.view_visibility with
    | false =>
      simp [extractMaskStep, extractedMaskEntries, hv, List.filter_cons]
    | true =>
      simp [extractMaskStep, extractedMaskEntries, hv, List.filter_cons]

/-- C8: extraction clears both output mappings first, so the result is
independent of the previous frame's resource state (no carry-over); it then
inserts exactly the query rows whose computed view-visibility flag is true,
keyed by entity, with the component fields copied into the snapshots, and
the counter reset; an entity appears among the extracted sprites (or masks)
precisely when some visible query row carries it.  No image or GPU state is
consulted, so rows with unresolved image references are extracted like any
other, and as a pure function of the query rows the system mutates no
persistent sprite or mask state. -/
theorem c8_extraction :
    (∀ st st' sq mq, extract_sprites st sq mq = extract_sprites st' sq mq)
    ∧ (∀ st sq mq,
        extract_sprites st sq mq
          = { sprites := extractedSpriteEntries sq,
              masks := extractedMaskEntries mq,
              mask_uniform_count := 0 })
    ∧ (∀ st sq mq e,
        (∃ s, (e, s) ∈ (extract_sprites st sq mq).sprites)
          ↔ ∃ r ∈ sq, r.view_visibility = true ∧ r.entity = e)
    ∧ (∀ st sq mq e,
        (∃ m, (e, m) ∈ (extract_sprites st sq mq).masks)
          ↔ ∃ r ∈ mq, r.view_visibility = true ∧ r.entity = e) := by
  have hchar : ∀ (st : ExtractedSprites) (sq : List SpriteQueryRow)
      (mq : List SpriteMaskQueryRow),
      extract_sprites st sq mq
        = { sprites := extractedSpriteEntries sq,
            masks := extractedMaskEntries mq,
            mask_uniform_count := 0 } := by
    intro st sq mq
    show mq.foldl extractMaskStep (sq.foldl extractSpriteStep st.clear) = _
    rw [extract_fold_sprites, extract_fold_masks]
    simp [ExtractedSprites.clear]
  refine ⟨fun st st' sq mq => by rw [hchar, hchar], hchar, ?_, ?_⟩
  · intro st sq mq e
    rw [hchar]
    constructor
    · rintro ⟨s, hs⟩
      simp only [extractedSpriteEntries, List.mem_map, List.mem_filter,
        Prod.mk.injEq] at hs
      obtain ⟨r, ⟨hr, hv⟩, he, -⟩ := hs
      exact ⟨r, hr, hv, he⟩
    · rintro ⟨r, hr, hv, rfl⟩
      refine ⟨extractedSpriteOfRow r, ?_⟩
      simp only [extractedSpriteEntries]
      exact List.mem_map.mpr ⟨r, List.mem_filter.mpr ⟨hr, hv⟩, rfl⟩
  · intro st sq mq e
    rw [hchar]
    constructor
    · rintro ⟨m, hm⟩
      simp only [extractedMaskEntries, List.mem_map, List.mem_filter,
        Prod.mk.injEq] at hm
      obtain ⟨r, ⟨hr, hv⟩, he, -⟩ := hm
      exact ⟨r, hr, hv, he⟩
    · rintro ⟨r, hr, hv, rfl⟩
      refine ⟨extractedMaskOfRow r, ?_⟩
      simp only [extractedMaskEntries]
      exact List.mem_map.mpr ⟨r, List.mem_filter.mpr ⟨hr, hv⟩, rfl⟩



theorem list_set_same {α : Type} : ∀ (l : List α) (i : Nat) (a : α),
    l.get? i = some a → l.set i a = l
  | [], i, a, h => by simp [List.get?] at h
  | x :: xs, 0, a, h => by
    rw [List.get?] at h
    cases h
    rfl
  | x :: xs, i + 1, a, h => by
    rw [List.get?] at h
    rw [List.set]
    rw [list_set_same xs i a h]

theorem bumpItemRangeEnd_entities (items : List PhaseItem) (i : Nat) :
    (bumpItemRangeEnd items i).map (fun it => it.entity) = items.map (fun it => it.entity) := by
  unfold bumpItemRangeEnd
  cases hget : items.get? i with
  | none => rfl
  | some it =>
    rw [List.map_set]
    apply list_set_same
    rw [List.get?_map, hget]
    rfl

theorem finishItem_basic {st : PhaseState} {entity item_index : Nat}
    {bic bmc : Bool} {mask_asset : Option Nat} {index : Nat} {masked : Bool} {st' : PhaseState}
    (h : finishItem st entity item_index bic bmc mask_asset index masked = some st') :
    st'.frame.meta = st.frame.meta
    ∧ st'.frame.unmasked_index = st.frame.unmasked_index + (if masked then 0 else 1)
    ∧ st'.frame.masked_index = st.frame.masked_index + (if masked then 1 else 0)
    ∧ st'.items.map (fun it => it.entity) = st.items.map (fun it => it.entity)
    ∧ st'.batch_image_handle = st.batch_image_handle
    ∧ st'.batch_mask_handle = st.batch_mask_handle := by
  cases hpush : (bic || bmc) with
  | true =>
    cases hm : masked with
    | true =>
      simp only [finishItem, hpush, if_true, hm] at h
      cases h
      refine ⟨rfl, by simp, by simp, bumpItemRangeEnd_entities _ _, rfl, rfl⟩
    | false =>
      simp only [finishItem, hpush, if_true, hm, Bool.false_eq_true, if_false] at h
      cases h
      refine ⟨rfl, by simp, by simp, bumpItemRangeEnd_entities _ _, rfl, rfl⟩
  | false =>
    cases hb : st.frame.batchesRev with
    | nil => simp [finishItem, hpush, hb] at h
    | cons b bs =>
      cases hm : masked with
      | true =>
        simp only [finishItem, hpush, hb, hm, Bool.false_eq_true, if_false, if_true] at h
        cases h
        refine ⟨rfl, by simp, by simp, bumpItemRangeEnd_entities _ _, rfl, rfl⟩
      | false =>
        simp only [finishItem, hpush, hb, hm, Bool.false_eq_true, if_false, if_true] at h
        cases h
        refine ⟨rfl, by simp, by simp, bumpItemRangeEnd_entities _ _, rfl, rfl⟩

theorem imageStep_basic {gpu_images : List (Nat × GpuImage)} {st : PhaseState}
    {sp : ExtractedSprite} {bic : Bool} {st1 : PhaseState}
    (h : imageStep gpu_images st sp bic = some st1) :
    st1.frame = st.frame ∧ st1.items = st.items
    ∧ st1.batch_mask_handle = st.batch_mask_handle
    ∧ st1.batch_item_index = st.batch_item_index := by
  unfold imageStep at h
  split at h
  · split at h
    · exact absurd h (by simp)
    · cases h; exact ⟨rfl, rfl, rfl, rfl⟩
  · cases h; exact ⟨rfl, rfl, rfl, rfl⟩

theorem maskStep_basic {gpu_images : List (Nat × GpuImage)} {st1 : PhaseState}
    {em : Option ExtractedSpriteMask} {ma : Option Nat} {bmc : Bool} {st2 : PhaseState}
    (h : maskStep gpu_images st1 em ma bmc = some st2) :
    st2.frame = st1.frame ∧ st2.items = st1.items
    ∧ st2.batch_image_handle = st1.batch_image_handle
    ∧ st2.batch_item_index = st1.batch_item_index := by
  unfold maskStep at h
  split at h
  · split at h
    · split at h
      · exact absurd h (by simp)
      · cases h; exact ⟨rfl, rfl, rfl, rfl⟩
    · cases h; exact ⟨rfl, rfl, rfl, rfl⟩
  · cases h; exact ⟨rfl, rfl, rfl, rfl⟩

theorem frameEvolves_refl (a : FrameState) : FrameEvolves a a :=
  ⟨rfl, ⟨[], by simp⟩, ⟨[], by simp⟩, rfl, rfl⟩

theorem frameEvolves_trans {a b c : FrameState}
    (h1 : FrameEvolves a b) (h2 : FrameEvolves b c) : FrameEvolves a c := by
  obtain ⟨i1, ⟨l1, e1⟩, ⟨m1, f1⟩, u1, k1⟩ := h1
  obtain ⟨i2, ⟨l2, e2⟩, ⟨m2, f2⟩, u2, k2⟩ := h2
  refine ⟨by rw [i2, i1], ⟨l1 ++ l2, by rw [e2, e1, List.append_assoc]⟩,
    ⟨m1 ++ m2, by rw [f2, f1, List.append_assoc]⟩, ?_, ?_⟩
  · have hl1 : b.meta.sprite_instance_buffer.length
        = a.meta.sprite_instance_buffer.length + l1.length := by rw [e1]; simp
    have hl2 : c.meta.sprite_instance_buffer.length
        = b.meta.sprite_instance_buffer.length + l2.length := by rw [e2]; simp
    omega
  · have hl1 : b.meta.masked_sprite_instance_buffer.length
        = a.meta.masked_sprite_instance_buffer.length + m1.length := by rw [f1]; simp
    have hl2 : c.meta.masked_sprite_instance_buffer.length
        = b.meta.masked_sprite_instance_buffer.length + m2.length := by rw [f2]; simp
    omega

theorem scanItem_basic {gpu_images : List (Nat × GpuImage)} {extracted : ExtractedSprites}
    {st : PhaseState} {idx : Nat} {st' : PhaseState}
    (h : scanItem gpu_images extracted st idx = some st') :
    FrameEvolves st.frame st'.frame
    ∧ st'.items.map (fun it => it.entity) = st.items.map (fun it => it.entity) := by
  simp only [scanItem] at h
  split at h
  · cases h
    exact ⟨frameEvolves_refl _, rfl⟩
  · split at h
    · cases h
      exact ⟨frameEvolves_refl _, rfl⟩
    · next item hget sp hsp =>
      split at h
      · cases h
        exact ⟨frameEvolves_refl _, rfl⟩
      · next st1 himg =>
        split at h
        · cases h
          obtain ⟨hf, hi, -, -⟩ := imageStep_basic himg
          rw [hf, hi]
          exact ⟨frameEvolves_refl _, rfl⟩
        · next st2 hmask =>
          obtain ⟨hf1, hi1, -, -⟩ := imageStep_basic himg
          obtain ⟨hf2, hi2, -, -⟩ := maskStep_basic hmask
          cases hem : findFirstMask extracted.masks sp.order with
          | none =>
            rw [hem] at h
            simp only [emitStep] at h
            obtain ⟨hm, hu, hk, he, -, -⟩ := finishItem_basic h
            refine ⟨⟨?_, ?_, ?_, ?_, ?_⟩, ?_⟩
            · rw [hm]; simp [hf2, hf1]
            · refine ⟨[SpriteInstance.build (sp.calcTransform st2.batch_image_size) sp.color
                (sp.calcUvOffsetScale st2.batch_image_size) sp.blend_mode], ?_⟩
              rw [hm]; simp [hf2, hf1]
            · refine ⟨[], ?_⟩
              rw [hm]; simp [hf2, hf1]
            · have hlen : st'.frame.meta.sprite_instance_buffer.length
                  = st.frame.meta.sprite_instance_buffer.length + 1 := by
                rw [hm]; simp [hf2, hf1]
              have hcur : st'.frame.unmasked_index = st.frame.unmasked_index + 1 := by
                rw [hu]; simp [hf2, hf1]
              omega
            · have hlen : st'.frame.meta.masked_sprite_instance_buffer.length
                  = st.frame.meta.masked_sprite_instance_buffer.length := by
                rw [hm]; simp [hf2, hf1]
              have hcur : st'.frame.masked_index = st.frame.masked_index := by
                rw [hk]; simp [hf2, hf1]
              omega
            · rw [he]; simp [hi2, hi1]
          | some m =>
            rw [hem] at h
            simp only [emitStep] at h
            obtain ⟨hm, hu, hk, he, -, -⟩ := finishItem_basic h
            refine ⟨⟨?_, ?_, ?_, ?_, ?_⟩, ?_⟩
            · rw [hm]; simp [hf2, hf1]
            · refine ⟨[], ?_⟩
              rw [hm]; simp [hf2, hf1]
            · refine ⟨[MaskedSpriteInstance.build
                (SpriteInstance.build (sp.calcTransform st2.batch_image_size) sp.color
                  (sp.calcUvOffsetScale st2.batch_image_size) sp.blend_mode)
                ((m.calcTransform st2.batch_mask_image_size).inverse.mul
                  (sp.calcTransform st2.batch_image_size))
                (m.calcUvOffsetScale st2.batch_mask_image_size)], ?_⟩
              rw [hm]; simp [hf2, hf1]
            · have hlen : st'.frame.meta.sprite_instance_buffer.length
                  = st.frame.meta.sprite_instance_buffer.length := by
                rw [hm]; simp [hf2, hf1]
              have hcur : st'.frame.unmasked_index = st.frame.unmasked_index := by
                rw [hu]; simp [hf2, hf1]
              omega
            · have hlen : st'.frame.meta.masked_sprite_instance_buffer.length
                  = st.frame.meta.masked_sprite_instance_buffer.length + 1 := by
                rw [hm]; simp [hf2, hf1]
              have hcur : st'.frame.masked_index = st.frame.masked_index + 1 := by
                rw [hk]; simp [hf2, hf1]
              omega
            · rw [he]; simp [hi2, hi1]

theorem scanGo_basic {gpu_images : List (Nat × GpuImage)} {extracted : ExtractedSprites} :
    ∀ (remaining : Nat) {idx : Nat} {st st' : PhaseState},
    scanGo gpu_images extracted st idx remaining = some st' →
    FrameEvolves st.frame st'.frame
    ∧ st'.items.map (fun it => it.entity) = st.items.map (fun it => it.entity)
  | 0, idx, st, st', h => by
    cases h
    exact ⟨frameEvolves_refl _, rfl⟩
  | remaining + 1, idx, st, st', h => by
    simp only [scanGo] at h
    split at h
    · exact absurd h (by simp)
    · next st1 hstep =>
      obtain ⟨he1, hi1⟩ := scanItem_basic hstep
      obtain ⟨he2, hi2⟩ := scanGo_basic remaining h
      exact ⟨frameEvolves_trans he1 he2, by rw [hi2, hi1]⟩

theorem scanPhase_basic {gpu_images : List (Nat × GpuImage)} {extracted : ExtractedSprites}
    {frame : FrameState} {items : List PhaseItem} {ps : PhaseState}
    (h : scanPhase gpu_images extracted frame items = some ps) :
    FrameEvolves frame ps.frame
    ∧ ps.items.map (fun it => it.entity) = items.map (fun it => it.entity) :=
  scanGo_basic items.length h

theorem prepareGo_basic {gpu_images : List (Nat × GpuImage)} {extracted : ExtractedSprites} :
    ∀ (phases : List (List PhaseItem)) {frame fr : FrameState} {out : List (List PhaseItem)},
    prepareGo gpu_images extracted frame phases = some (fr, out) →
    FrameEvolves frame fr
  | [], frame, fr, out, h => by
    cases h
    exact frameEvolves_refl _
  | items :: rest, frame, fr, out, h => by
    simp only [prepareGo] at h
    split at h
    · exact absurd h (by simp)
    · next ps hps =>
      split at h
      · exact absurd h (by simp)
      · next fr2 out2 hrec =>
        cases h
        exact frameEvolves_trans (scanPhase_basic hps).1 (prepareGo_basic rest hrec)

theorem write_index_preserves (m : SpriteMeta) :
    (write_index_buffer_if_needed m).sprite_instance_buffer = m.sprite_instance_buffer
    ∧ (write_index_buffer_if_needed m).masked_sprite_instance_buffer
        = m.masked_sprite_instance_buffer := by
  unfold write_index_buffer_if_needed
  split
  · exact ⟨rfl, rfl⟩
  · exact ⟨rfl, rfl⟩

theorem c7_index_buffer_amended :
    quadIndices = [2, 0, 1, 1, 3, 2]
    ∧ quadIndices.length = 6
    ∧ (∀ i ∈ quadIndices, i < 4)
    ∧ (∀ gpu_images extracted sprite_meta phases fr out,
        prepare_sprite_image_bind_groups gpu_images extracted sprite_meta phases
          = some (fr, out) → fr.meta.sprite_index_buffer = quadIndices)
    ∧ (∀ gpu_images extracted sprite_meta phases fr out,
        prepareGo gpu_images extracted
          { meta := sprite_meta.clear, batchesRev := [],
            unmasked_index := 0, masked_index := 0 } phases = some (fr, out) →
        fr.meta.sprite_index_buffer = []
        ∧ indexBufferGuardFires gpu_images extracted sprite_meta phases = true) := by
  refine ⟨rfl, rfl, by decide, ?_, ?_⟩
  · intro gpu_images extracted sprite_meta phases fr out h
    simp only [prepare_sprite_image_bind_groups] at h
    split at h
    · exact absurd h (by simp)
    · next fr0 out0 hgo =>
      cases h
      obtain ⟨hidx, -, -, -, -⟩ := prepareGo_basic phases hgo
      show (write_index_buffer_if_needed fr0.meta).sprite_index_buffer = quadIndices
      rw [write_index_buffer_if_needed, hidx]
      simp [SpriteMeta.clear]
  · intro gpu_images extracted sprite_meta phases fr out h
    obtain ⟨hidx, -, -, -, -⟩ := prepareGo_basic phases h
    refine ⟨hidx, ?_⟩
    simp only [indexBufferGuardFires, h]
    rw [hidx]
    simp [SpriteMeta.clear]

theorem c7_counterexample :
    metaAfterFirstFrame.sprite_index_buffer.length = 6
    ∧ indexBufferGuardFires [] ⟨[], [], 0⟩ metaAfterFirstFrame [] = true := by
  decide

theorem c7_index_buffer_amended_witness :
    ((⟨⟨quadIndices, [], []⟩, [], 0, 0⟩ : FrameState)).meta.sprite_index_buffer
      = quadIndices :=
  c7_index_buffer_amended.2.2.2.1 [] ⟨[], [], 0⟩ ⟨[], [], []⟩ [] _ [] (by decide)

theorem c3_mask_unresolvable_drops_entry
    (gpu_images : List (Nat × GpuImage)) (extracted : ExtractedSprites)
    (st : PhaseState) (idx : Nat) (item : PhaseItem) (sp : ExtractedSprite)
    (m : ExtractedSpriteMask)
    (hget : st.items.get? idx = some item)
    (hsp : lookupEntity extracted.sprites item.entity = some sp)
    (himg : st.batch_image_handle ≠ some sp.image_handle_id →
      (getGpu gpu_images sp.image_handle_id).isSome = true)
    (hfm : findFirstMask extracted.masks sp.order = some m)
    (hunres : getGpu gpu_images m.image_handle_id = none)
    (hchanged : st.batch_mask_handle ≠ some m.image_handle_id) :
    ∃ st1, scanItem gpu_images extracted st idx = some st1
      ∧ st1.frame = st.frame
      ∧ st1.items = st.items
      ∧ st1.batch_mask_handle = st.batch_mask_handle
      ∧ st1.batch_item_index = st.batch_item_index := by
  simp only [scanItem, hget, hsp, hfm]
  by_cases hbic : st.batch_image_handle = some sp.image_handle_id
  · have hd : decide (st.batch_image_handle ≠ some sp.image_handle_id) = false := by
      simp [hbic]
    rw [hd]
    simp only [imageStep, Bool.false_eq_true, if_false]
    have hd2 : decide (st.batch_mask_handle
        ≠ Option.map (fun x => x.image_handle_id) (some m)) = true := by
      simp [hchanged]
    rw [hd2]
    simp only [maskStep, if_true, hunres]
    exact ⟨st, rfl, rfl, rfl, rfl, rfl⟩
  · have hd : decide (st.batch_image_handle ≠ some sp.image_handle_id) = true := by
      simp [hbic]
    rw [hd]
    obtain ⟨g, hg⟩ := Option.isSome_iff_exists.mp (himg hbic)
    cases hstep : imageStep gpu_images st sp true with
    | none => simp [imageStep, hg] at hstep
    | some st1 =>
      obtain ⟨hf, hi, hmh, hbi⟩ := imageStep_basic hstep
      simp only [hstep]
      have hd2 : decide (st1.batch_mask_handle
          ≠ Option.map (fun x => x.image_handle_id) (some m)) = true := by
        rw [hmh]
        simp [hchanged]
      rw [hd2]
      simp only [maskStep, if_true, hunres]
      exact ⟨st1, rfl, hf, hi, hmh, hbi⟩

theorem c3_counterexample : c3ClaimHolds = false := by decide

theorem c3_witness :
    ∃ st1, scanItem gpuC3 extractedC3 (phaseInit frameInit itemsC3) 0 = some st1
      ∧ st1.frame = (phaseInit frameInit itemsC3).frame
      ∧ st1.items = (phaseInit frameInit itemsC3).items
      ∧ st1.batch_mask_handle = (phaseInit frameInit itemsC3).batch_mask_handle
      ∧ st1.batch_item_index = (phaseInit frameInit itemsC3).batch_item_index :=
  c3_mask_unresolvable_drops_entry gpuC3 extractedC3 (phaseInit frameInit itemsC3) 0
    ⟨1, (0, 0)⟩ (mkSprite 10 1) (mkMask 31 1 1)
    (by decide) (by decide) (by decide) (by decide) (by decide) (by decide)

theorem c9_scan_state_amended :
    (∀ frame items, phaseInit frame items
        = { frame := frame, items := items, batch_item_index := 0,
            batch_image_size := Vec2.zero, batch_image_handle := none,
            batch_mask_image_size := Vec2.zero, batch_mask_handle := none })
    ∧ (∀ gpu_images extracted frame items ps,
        scanPhase gpu_images extracted frame items = some ps →
        FrameEvolves frame ps.frame)
    ∧ (∀ gpu_images extracted sprite_meta phases fr out,
        prepare_sprite_image_bind_groups gpu_images extracted sprite_meta phases
          = some (fr, out) →
        fr.unmasked_index = fr.meta.sprite_instance_buffer.length
        ∧ fr.masked_index = fr.meta.masked_sprite_instance_buffer.length) := by
  refine ⟨fun frame items => rfl, fun _ _ _ _ _ h => (scanPhase_basic h).1, ?_⟩
  intro gpu_images extracted sprite_meta phases fr out h
  simp only [prepare_sprite_image_bind_groups] at h
  split at h
  · exact absurd h (by simp)
  · next fr0 out0 hgo =>
    cases h
    obtain ⟨-, -, -, hu, hk⟩ := prepareGo_basic phases hgo
    obtain ⟨hwu, hwk⟩ := write_index_preserves fr0.meta
    constructor
    · show fr0.unmasked_index
        = (write_index_buffer_if_needed fr0.meta).sprite_instance_buffer.length
      rw [hwu]
      simpa [SpriteMeta.clear] using hu.symm
    · show fr0.masked_index
        = (write_index_buffer_if_needed fr0.meta).masked_sprite_instance_buffer.length
      rw [hwk]
      simpa [SpriteMeta.clear] using hk.symm

theorem c9_counterexample : c9ClaimHolds = false := by decide

theorem c9_scan_state_amended_witness :
    FrameEvolves frameInit psC3.frame :=
  c9_scan_state_amended.2.1 gpuC3 extractedC3 frameInit itemsC3 psC3 (by decide)

/-! ### The batching invariant and the C2 claim -/

/-- A mask resolved by first-match is one of the extracted masks. -/
theorem findFirstMask_mem {masks : List (Nat × ExtractedSpriteMask)} {order : Nat}
    {m : ExtractedSpriteMask} (h : findFirstMask masks order = some m) :
    ∃ k, (k, m) ∈ masks := by
  induction masks with
  | nil => simp [findFirstMask] at h
  | cons hd tl ih =>
    obtain ⟨k, mh⟩ := hd
    rw [findFirstMask] at h
    by_cases hc : maskContains mh order
    · rw [if_pos hc] at h
      cases h
      exact ⟨k, by simp⟩
    · rw [if_neg hc] at h
      obtain ⟨k', hk⟩ := ih h
      exact ⟨k', by simp [hk]⟩


/-- Exact behaviour of the image step: either the image identity was unchanged and the state is untouched, or the sprite texture resolved and the tracked image size/identity were updated (everything else preserved). -/
theorem imageStep_spec {gpu_images : List (Nat × GpuImage)} {st : PhaseState}
    {sp : ExtractedSprite} {bic : Bool} {st1 : PhaseState}
    (h : imageStep gpu_images st sp bic = some st1) :
    (bic = false ∧ st1 = st)
    ∨ (bic = true ∧ (getGpu gpu_images sp.image_handle_id).isSome = true
        ∧ st1.batch_image_handle = some sp.image_handle_id
        ∧ st1.frame = st.frame ∧ st1.items = st.items
        ∧ st1.batch_mask_handle = st.batch_mask_handle
        ∧ st1.batch_item_index = st.batch_item_index) := by
  cases bic with
  | false =>
    left
    simp only [imageStep, Bool.false_eq_true, if_false] at h
    cases h
    exact ⟨rfl, rfl⟩
  | true =>
    right
    simp only [imageStep, if_true] at h
    cases hg : getGpu gpu_images sp.image_handle_id with
    | none => rw [hg] at h; cases h
    | some g =>
      rw [hg] at h
      cases h
      exact ⟨rfl, by simp [hg], rfl, rfl, rfl, rfl, rfl⟩


/-- Exact behaviour of the mask step on success: either the mask identity was unchanged and the state is untouched, or the tracked mask identity was updated (everything else preserved). -/
theorem maskStep_spec {gpu_images : List (Nat × GpuImage)} {st1 : PhaseState}
    {em : Option ExtractedSpriteMask} {ma : Option Nat} {bmc : Bool} {st2 : PhaseState}
    (h : maskStep gpu_images st1 em ma bmc = some st2) :
    (bmc = false ∧ st2 = st1)
    ∨ (bmc = true ∧ st2.batch_mask_handle = ma
        ∧ st2.frame = st1.frame ∧ st2.items = st1.items
        ∧ st2.batch_image_handle = st1.batch_image_handle
        ∧ st2.batch_item_index = st1.batch_item_index) := by
  cases bmc with
  | false =>
    left
    simp only [maskStep, Bool.false_eq_true, if_false] at h
    cases h
    exact ⟨rfl, rfl⟩
  | true =>
    right
    cases em with
    | none =>
      simp only [maskStep, if_true] at h
      cases h
      exact ⟨rfl, rfl, rfl, rfl, rfl, rfl⟩
    | some mv =>
      simp only [maskStep, if_true] at h
      cases hg : getGpu gpu_images mv.image_handle_id with
      | none => rw [hg] at h; cases h
      | some g =>
        rw [hg] at h
        cases h
        exact ⟨rfl, rfl, rfl, rfl, rfl, rfl⟩


/-- When the image or mask identity changed, `finishItem` pushes a fresh one-instance batch anchored at the cursor and bumps the tracked item range and the used cursor. -/
theorem finishItem_spec_push (st : PhaseState) (entity item_index : Nat)
    (bic bmc : Bool) (ma : Option Nat) (index : Nat) (masked : Bool)
    (hpush : (bic || bmc) = true) :
    finishItem st entity item_index bic bmc ma index masked
      = some { st with
          batch_item_index := item_index,
          items := bumpItemRangeEnd st.items item_index,
          frame := { st.frame with
            batchesRev := (entity, ⟨st.batch_image_handle, (index, index + 1), ma⟩) :: st.frame.batchesRev,
            unmasked_index := st.frame.unmasked_index + (if masked then 0 else 1),
            masked_index := st.frame.masked_index + (if masked then 1 else 0) } } := by
  cases masked <;> simp [finishItem, hpush, bumpBatchEnd]


/-- When nothing changed and a newest batch exists, `finishItem` extends that batch by one instance and bumps the tracked item range and the used cursor. -/
theorem finishItem_spec_extend (st : PhaseState) (entity item_index : Nat)
    (bic bmc : Bool) (ma : Option Nat) (index : Nat) (masked : Bool)
    (hpush : (bic || bmc) = false) (b : Nat × SpriteBatch) (bs : List (Nat × SpriteBatch))
    (hb : st.frame.batchesRev = b :: bs) :
    finishItem st entity item_index bic bmc ma index masked
      = some { st with
          items := bumpItemRangeEnd st.items st.batch_item_index,
          frame := { st.frame with
            batchesRev := bumpBatchEnd b :: bs,
            unmasked_index := st.frame.unmasked_index + (if masked then 0 else 1),
            masked_index := st.frame.masked_index + (if masked then 1 else 0) } } := by
  cases masked <;> simp [finishItem, hpush, hb]


/-- When nothing changed and no batch exists, `finishItem` panics (the source unwraps `last_mut` on an empty vector). -/
theorem finishItem_spec_panic (st : PhaseState) (entity item_index : Nat)
    (bic bmc : Bool) (ma : Option Nat) (index : Nat) (masked : Bool)
    (hpush : (bic || bmc) = false) (hb : st.frame.batchesRev = []) :
    finishItem st entity item_index bic bmc ma index masked = none := by
  simp [finishItem, hpush, hb]


/-- No batches, no ranges. -/
theorem bufferRanges_nil (m : Bool) : bufferRanges [] m = [] := rfl


/-- Unfolding `bufferRanges` over the newest batch. -/
theorem bufferRanges_cons (b : Nat × SpriteBatch) (bs : List (Nat × SpriteBatch)) (m : Bool) :
    bufferRanges (b :: bs) m
      = if isMaskedBatch b == m then b.2.range :: bufferRanges bs m
        else bufferRanges bs m := by
  simp only [bufferRanges, List.filter_cons]
  split
  · simp
  · rfl


/-- Extending the newest range by one keeps the newest-first tiling, with the upper bound moved up by one. -/
theorem revChain_extend {lo hi s e : Nat} {rest : List (Nat × Nat)}
    (h : revChain lo ((s, e) :: rest) hi) : revChain lo ((s, e + 1) :: rest) (hi + 1) := by
  obtain ⟨he, hse, hrest⟩ := h
  exact ⟨by omega, by omega, hrest⟩


/-- Pushing a fresh one-element range at the upper bound keeps the newest-first tiling, with the upper bound moved up by one. -/
theorem revChain_push {lo hi : Nat} {rs : List (Nat × Nat)}
    (h : revChain lo rs hi) : revChain lo ((hi, hi + 1) :: rs) (hi + 1) :=
  ⟨rfl, by omega, h⟩

/-- The mask step can only fail on an applicable mask whose texture does not resolve. -/
theorem maskStep_none_spec {gpu_images : List (Nat × GpuImage)} {st1 : PhaseState}
    {em : Option ExtractedSpriteMask} {ma : Option Nat} {bmc : Bool}
    (h : maskStep gpu_images st1 em ma bmc = none) :
    ∃ mv, em = some mv ∧ getGpu gpu_images mv.image_handle_id = none := by
  cases bmc with
  | false => simp [maskStep] at h
  | true =>
    cases em with
    | none => simp [maskStep] at h
    | some mv =>
      cases hg : getGpu gpu_images mv.image_handle_id with
      | none => exact ⟨mv, rfl, hg⟩
      | some g => simp [maskStep, hg] at h


/-- Pair-variable form of `revChain_extend`. -/
theorem revChain_extend' {lo hi : Nat} {r : Nat × Nat} {rest : List (Nat × Nat)}
    (h : revChain lo (r :: rest) hi) : revChain lo ((r.1, r.2 + 1) :: rest) (hi + 1) := by
  obtain ⟨s, e⟩ := r
  exact revChain_extend h


/-- One scan iteration preserves the batching invariant when every extracted mask texture is resolvable, never panics, advances the cursors by exactly the number of entries counted as processed at this position, and leaves the phase-item entities unchanged. -/
theorem scanItem_inv {gpu_images : List (Nat × GpuImage)} {extracted : ExtractedSprites}
    (H : ∀ p ∈ extracted.masks, (getGpu gpu_images p.2.image_handle_id).isSome = true)
    {fr0 : FrameState} {st : PhaseState} {idx : Nat}
    (hInv : ScanInv gpu_images fr0 st) :
    ∃ st', scanItem gpu_images extracted st idx = some st'
      ∧ ScanInv gpu_images fr0 st'
      ∧ st'.frame.unmasked_index + st'.frame.masked_index
          = st.frame.unmasked_index + st.frame.masked_index
            + stepProcessed gpu_images extracted st.items idx
      ∧ st'.items.map (fun it => it.entity) = st.items.map (fun it => it.entity) := by
  obtain ⟨newRev, hdec, hcu, hcm, hne, hhead, hresI, hresM, hlku, hlkm⟩ := hInv
  cases hget : st.items.get? idx with
  | none =>
    refine ⟨st, by simp only [scanItem, hget], ?_,
      by simp only [stepProcessed, hget]; omega, rfl⟩
    exact ⟨newRev, hdec, hcu, hcm, hne, hhead, hresI, hresM, hlku, hlkm⟩
  | some item =>
    cases hsp : lookupEntity extracted.sprites item.entity with
    | none =>
      refine ⟨{ st with batch_image_handle := none },
        by simp only [scanItem, hget, hsp], ?_,
        by simp only [stepProcessed, hget, hsp]; omega, rfl⟩
      refine ⟨newRev, hdec, hcu, hcm, hne, ?_, by simp, hresM, hlku, hlkm⟩
      cases newRev with
      | nil => rfl
      | cons b bs => exact hhead
    | some sp =>
      simp only [scanItem, hget, hsp]
      -- the matches on the rewritten scrutinees reduce definitionally
      cases hi : imageStep gpu_images st sp
          (decide (st.batch_image_handle ≠ some sp.image_handle_id)) with
      | none =>
        have hskip : decide (st.batch_image_handle ≠ some sp.image_handle_id) = true
            ∧ getGpu gpu_images sp.image_handle_id = none := by
          by_cases heq : st.batch_image_handle = some sp.image_handle_id
          · simp [imageStep, heq] at hi
          · refine ⟨by simp [heq], ?_⟩
            cases hg : getGpu gpu_images sp.image_handle_id with
            | none => rfl
            | some g => simp [imageStep, heq, hg] at hi
        refine ⟨st, rfl, ?_, ?_, rfl⟩
        · exact ⟨newRev, hdec, hcu, hcm, hne, hhead, hresI, hresM, hlku, hlkm⟩
        · simp only [stepProcessed, hget, hsp, hskip.2, Option.isSome_none,
            Bool.false_eq_true, if_false]
          omega
      | some st1 =>
        have huni : st1.batch_image_handle = some sp.image_handle_id
            ∧ st1.frame = st.frame ∧ st1.items = st.items
            ∧ st1.batch_mask_handle = st.batch_mask_handle
            ∧ st1.batch_item_index = st.batch_item_index
            ∧ (getGpu gpu_images sp.image_handle_id).isSome = true := by
          rcases imageStep_spec hi with ⟨hbf, rfl⟩ | ⟨-, hres, hbi, hf, hit, hmh, hix⟩
          · have heq := of_decide_eq_false hbf
            rw [not_ne_iff] at heq
            exact ⟨heq, rfl, rfl, rfl, rfl, hresI _ heq⟩
          · exact ⟨hbi, hf, hit, hmh, hix, hres⟩
        obtain ⟨hbi1, hf1, hit1, hmh1, hix1, himgres⟩ := huni
        have hstep1 : stepProcessed gpu_images extracted st.items idx = 1 := by
          simp only [stepProcessed, hget, hsp, himgres, if_true]
        cases hem : findFirstMask extracted.masks sp.order with
        | none =>
          simp only [Option.map_none']
          cases hm : maskStep gpu_images st1 none none
              (decide (st1.batch_mask_handle ≠ none)) with
          | none =>
            obtain ⟨mv, hmv, -⟩ := maskStep_none_spec hm
            cases hmv
          | some st2 =>
            have huni2 : st2.batch_mask_handle = none
                ∧ st2.frame = st.frame ∧ st2.items = st.items
                ∧ st2.batch_image_handle = some sp.image_handle_id
                ∧ st2.batch_item_index = st.batch_item_index := by
              rcases maskStep_spec hm with ⟨hbf, rfl⟩ | ⟨-, hma, hf, hit, hbi, hix⟩
              · have heq := of_decide_eq_false hbf
                rw [not_ne_iff] at heq
                exact ⟨heq, hf1, hit1, hbi1, hix1⟩
              · exact ⟨hma, by rw [hf, hf1], by rw [hit, hit1],
                  by rw [hbi, hbi1], by rw [hix, hix1]⟩
            obtain ⟨hbm2, hf2, hit2, hbi2, hix2⟩ := huni2
            simp only [emitStep]
            cases hpush : (decide (st.batch_image_handle ≠ some sp.image_handle_id)
                || decide (st1.batch_mask_handle ≠ none)) with
            | true =>
              rw [finishItem_spec_push _ _ _ _ _ _ _ _ hpush]
              rw [hf2, hit2, hbm2, hbi2]
              refine ⟨_, rfl, ?_, ?_, ?_⟩
              · refine ⟨(item.entity, ⟨some sp.image_handle_id,
                    (st.frame.unmasked_index, st.frame.unmasked_index + 1), none⟩) :: newRev,
                  ?_, ?_, ?_, ?_, ?_, ?_, ?_, ?_, ?_⟩
                · simp only [hdec, List.cons_append]
                · simp only [bufferRanges_cons, isMaskedBatch, Option.isSome_none,
                    Bool.false_eq_true, if_false, if_true, beq_self_eq_true, ite_true,
                    Nat.add_zero]
                  exact revChain_push hcu
                · simp only [bufferRanges_cons, isMaskedBatch, Option.isSome_none,
                    Bool.false_eq_true, if_false, if_true, Nat.add_zero]
                  simp only [show ((false : Bool) == true) = false from rfl,
                    Bool.false_eq_true, if_false]
                  exact hcm
                · intro b hb
                  rcases List.mem_cons.mp hb with hb | hb
                  · rw [hb]; simp
                  · exact hne b hb
                · simp only []
                · intro a ha
                  cases ha
                  exact himgres
                · intro a ha
                  cases ha
                · simp only [List.length_append, List.length_singleton,
                    Bool.false_eq_true, if_false, if_true]
                  omega
                · simp only [Bool.false_eq_true, if_false, if_true]
                  omega
              · rw [hstep1]
                simp only [Bool.false_eq_true, if_false, if_true]
                omega
              · exact bumpItemRangeEnd_entities _ _
            | false =>
              have hbicf : st.batch_image_handle = some sp.image_handle_id := by
                have h1 := (Bool.or_eq_false_iff.mp hpush).1
                have h2 := of_decide_eq_false h1
                rwa [not_ne_iff] at h2
              have hbmcf : st.batch_mask_handle = none := by
                have h1 := (Bool.or_eq_false_iff.mp hpush).2
                have h2 := of_decide_eq_false h1
                rw [not_ne_iff] at h2
                rw [← hmh1]
                exact h2
              cases newRev with
              | nil =>
                simp only [] at hhead
                simp [hhead] at hbicf
              | cons b bs =>
                simp only [] at hhead
                have hbmask : b.2.mask_image_handle_id = none := by
                  rw [hhead, hbmcf]
                have hb3 : st2.frame.batchesRev = b :: (bs ++ fr0.batchesRev) := by
                  rw [hf2, hdec, List.cons_append]
                refine ⟨_, finishItem_spec_extend _ item.entity idx _ _ none
                    st2.frame.unmasked_index false hpush b (bs ++ fr0.batchesRev) hb3,
                  ?_, ?_, ?_⟩
                · refine ⟨bumpBatchEnd b :: bs, ?_, ?_, ?_, ?_, ?_, ?_, ?_, ?_, ?_⟩
                  · simp only [List.cons_append]
                  · have hcu' : revChain fr0.unmasked_index
                        (b.2.range :: bufferRanges bs false) st.frame.unmasked_index := by
                      have heq2 : bufferRanges (b :: bs) false
                          = b.2.range :: bufferRanges bs false := by
                        rw [bufferRanges_cons]
                        simp [isMaskedBatch, hbmask]
                      rwa [heq2] at hcu
                    have hext := revChain_extend' hcu'
                    simp only [bufferRanges_cons, isMaskedBatch, bumpBatchEnd,
                      hbmask, Option.isSome_none, Bool.false_eq_true, if_false, if_true,
                      Nat.add_zero, beq_self_eq_true, ite_true, hf2]
                    exact hext
                  · have hcm' : bufferRanges (b :: bs) true = bufferRanges bs true := by
                      rw [bufferRanges_cons]
                      simp [isMaskedBatch, hbmask]
                    rw [hcm'] at hcm
                    simp only [bufferRanges_cons, isMaskedBatch, bumpBatchEnd, hbmask,
                      Option.isSome_none, Bool.false_eq_true, if_false, if_true,
                      Nat.add_zero, hf2]
                    simp only [show ((false : Bool) == true) = false from rfl,
                      Bool.false_eq_true, if_false]
                    exact hcm
                  · intro bb hbb
                    rcases List.mem_cons.mp hbb with hbb | hbb
                    · rw [hbb]
                      have := hne b (List.mem_cons_self _ _)
                      simp only [bumpBatchEnd]
                      omega
                    · exact hne bb (List.mem_cons_of_mem _ hbb)
                  · simp only [bumpBatchEnd, hbm2]
                    exact hbmask
                  · intro a ha
                    simp only [hbi2] at ha
                    cases ha
                    exact himgres
                  · intro a ha
                    simp only [hbm2] at ha
                    cases ha
                  · simp only [List.length_append, List.length_singleton,
                      Bool.false_eq_true, if_false, if_true, hf2]
                    omega
                  · simp only [Bool.false_eq_true, if_false, if_true, hf2]
                    omega
                · rw [hstep1]
                  simp only [Bool.false_eq_true, if_false, if_true, hf2]
                  omega
                · simp only [hit2]
                  exact bumpItemRangeEnd_entities _ _
        | some m =>
          simp only [Option.map_some']
          have hmres : (getGpu gpu_images m.image_handle_id).isSome = true := by
            obtain ⟨k, hk⟩ := findFirstMask_mem hem
            exact H (k, m) hk
          cases hm : maskStep gpu_images st1 (some m) (some m.image_handle_id)
              (decide (st1.batch_mask_handle ≠ some m.image_handle_id)) with
          | none =>
            obtain ⟨mv, hmv, hgn⟩ := maskStep_none_spec hm
            cases hmv
            rw [hgn] at hmres
            simp at hmres
          | some st2 =>
            have huni2 : st2.batch_mask_handle = some m.image_handle_id
                ∧ st2.frame = st.frame ∧ st2.items = st.items
                ∧ st2.batch_image_handle = some sp.image_handle_id
                ∧ st2.batch_item_index = st.batch_item_index := by
              rcases maskStep_spec hm with ⟨hbf, rfl⟩ | ⟨-, hma, hf, hit, hbi, hix⟩
              · have heq := of_decide_eq_false hbf
                rw [not_ne_iff] at heq
                exact ⟨heq, hf1, hit1, hbi1, hix1⟩
              · exact ⟨hma, by rw [hf, hf1], by rw [hit, hit1],
                  by rw [hbi, hbi1], by rw [hix, hix1]⟩
            obtain ⟨hbm2, hf2, hit2, hbi2, hix2⟩ := huni2
            simp only [emitStep]
            cases hpush : (decide (st.batch_image_handle ≠ some sp.image_handle_id)
                || decide (st1.batch_mask_handle ≠ some m.image_handle_id)) with
            | true =>
              rw [finishItem_spec_push _ _ _ _ _ _ _ _ hpush]
              rw [hf2, hit2, hbm2, hbi2]
              refine ⟨_, rfl, ?_, ?_, ?_⟩
              · refine ⟨(item.entity, ⟨some sp.image_handle_id,
                    (st.frame.masked_index, st.frame.masked_index + 1),
                    some m.image_handle_id⟩) :: newRev,
                  ?_, ?_, ?_, ?_, ?_, ?_, ?_, ?_, ?_⟩
                · simp only [hdec, List.cons_append]
                · simp only [bufferRanges_cons, isMaskedBatch, Option.isSome_some,
                    Bool.false_eq_true, if_false, if_true, Nat.add_zero]
                  simp only [show ((true : Bool) == false) = false from rfl,
                    Bool.false_eq_true, if_false]
                  exact hcu
                · simp only [bufferRanges_cons, isMaskedBatch, Option.isSome_some,
                    beq_self_eq_true, ite_true, Bool.false_eq_true, if_false, if_true]
                  exact revChain_push hcm
                · intro b hb
                  rcases List.mem_cons.mp hb with hb | hb
                  · rw [hb]; simp
                  · exact hne b hb
                · simp only []
                · intro a ha
                  cases ha
                  exact himgres
                · intro a ha
                  cases ha
                  exact hmres
                · simp only [Bool.false_eq_true, if_false, if_true, Nat.add_zero]
                  omega
                · simp only [List.length_append, List.length_singleton,
                    Bool.false_eq_true, if_false, if_true]
                  omega
              · rw [hstep1]
                simp only [Bool.false_eq_true, if_false, if_true]
                omega
              · exact bumpItemRangeEnd_entities _ _
            | false =>
              have hbicf : st.batch_image_handle = some sp.image_handle_id := by
                have h1 := (Bool.or_eq_false_iff.mp hpush).1
                have h2 := of_decide_eq_false h1
                rwa [not_ne_iff] at h2
              have hbmcf : st.batch_mask_handle = some m.image_handle_id := by
                have h1 := (Bool.or_eq_false_iff.mp hpush).2
                have h2 := of_decide_eq_false h1
                rw [not_ne_iff] at h2
                rw [← hmh1]
                exact h2
              cases newRev with
              | nil =>
                simp only [] at hhead
                simp [hhead] at hbicf
              | cons b bs =>
                simp only [] at hhead
                have hbmask : b.2.mask_image_handle_id = some m.image_handle_id := by
                  rw [hhead, hbmcf]
                have hb3 : st2.frame.batchesRev = b :: (bs ++ fr0.batchesRev) := by
                  rw [hf2, hdec, List.cons_append]
                refine ⟨_, finishItem_spec_extend _ item.entity idx _ _
                    (some m.image_handle_id) st2.frame.masked_index true hpush b
                    (bs ++ fr0.batchesRev) hb3,
                  ?_, ?_, ?_⟩
                · refine ⟨bumpBatchEnd b :: bs, ?_, ?_, ?_, ?_, ?_, ?_, ?_, ?_, ?_⟩
                  · simp only [List.cons_append]
                  · have hcu' : bufferRanges (b :: bs) false = bufferRanges bs false := by
                      rw [bufferRanges_cons]
                      simp [isMaskedBatch, hbmask]
                    rw [hcu'] at hcu
                    simp only [bufferRanges_cons, isMaskedBatch, bumpBatchEnd, hbmask,
                      Option.isSome_some, Bool.false_eq_true, if_false, if_true,
                      Nat.add_zero, hf2]
                    simp only [show ((true : Bool) == false) = false from rfl,
                      Bool.false_eq_true, if_false]
                    exact hcu
                  · have hcm' : revChain fr0.masked_index
                        (b.2.range :: bufferRanges bs true) st.frame.masked_index := by
                      have heq2 : bufferRanges (b :: bs) true
                          = b.2.range :: bufferRanges bs true := by
                        rw [bufferRanges_cons]
                        simp [isMaskedBatch, hbmask]
                      rwa [heq2] at hcm
                    have hext := revChain_extend' hcm'
                    simp only [bufferRanges_cons, isMaskedBatch, bumpBatchEnd,
                      hbmask, Option.isSome_some, Bool.false_eq_true, if_false, if_true,
                      Nat.add_zero, beq_self_eq_true, ite_true, hf2]
                    exact hext
                  · intro bb hbb
                    rcases List.mem_cons.mp hbb with hbb | hbb
                    · rw [hbb]
                      have := hne b (List.mem_cons_self _ _)
                      simp only [bumpBatchEnd]
                      omega
                    · exact hne bb (List.mem_cons_of_mem _ hbb)
                  · simp only [bumpBatchEnd, hbm2]
                    exact hbmask
                  · intro a ha
                    simp only [hbi2] at ha
                    cases ha
                    exact himgres
                  · intro a ha
                    simp only [hbm2] at ha
                    cases ha
                    exact hmres
                  · simp only [Bool.false_eq_true, if_false, if_true, Nat.add_zero, hf2]
                    omega
                  · simp only [List.length_append, List.length_singleton,
                      Bool.false_eq_true, if_false, if_true, hf2]
                    omega
                · rw [hstep1]
                  simp only [Bool.false_eq_true, if_false, if_true, hf2]
                  omega
                · simp only [hit2]
                  exact bumpItemRangeEnd_entities _ _

/-- The processed count of a position depends only on the entities of the phase items. -/
theorem stepProcessed_congr {gpu_images : List (Nat × GpuImage)} {extracted : ExtractedSprites}
    {items1 items2 : List PhaseItem}
    (h : items1.map (fun it => it.entity) = items2.map (fun it => it.entity)) (idx : Nat) :
    stepProcessed gpu_images extracted items1 idx = stepProcessed gpu_images extracted items2 idx := by
  have hg : (items1.get? idx).map (fun it => it.entity)
      = (items2.get? idx).map (fun it => it.entity) := by
    rw [← List.get?_map, ← List.get?_map, h]
  unfold stepProcessed
  cases h1 : items1.get? idx with
  | none =>
    rw [h1] at hg
    cases h2 : items2.get? idx with
    | none => rfl
    | some it2 => rw [h2] at hg; simp at hg
  | some it1 =>
    rw [h1] at hg
    cases h2 : items2.get? idx with
    | none => rw [h2] at hg; simp at hg
    | some it2 =>
      rw [h2] at hg
      simp only [Option.map_some', Option.some.injEq] at hg
      show (match lookupEntity extracted.sprites it1.entity with
        | none => 0
        | some sp => if (getGpu gpu_images sp.image_handle_id).isSome = true then 1 else 0)
        = (match lookupEntity extracted.sprites it2.entity with
        | none => 0
        | some sp => if (getGpu gpu_images sp.image_handle_id).isSome = true then 1 else 0)
      rw [hg]


/-- The processed count of a window depends only on the entities of the phase items. -/
theorem claimProcessedFrom_congr {gpu_images : List (Nat × GpuImage)}
    {extracted : ExtractedSprites} {items1 items2 : List PhaseItem}
    (h : items1.map (fun it => it.entity) = items2.map (fun it => it.entity)) :
    ∀ (remaining idx : Nat),
    claimProcessedFrom gpu_images extracted items1 idx remaining
      = claimProcessedFrom gpu_images extracted items2 idx remaining
  | 0, idx => rfl
  | remaining + 1, idx => by
    rw [claimProcessedFrom, claimProcessedFrom, stepProcessed_congr h idx,
      claimProcessedFrom_congr h remaining (idx + 1)]


/-- Running the scan over a window of positions preserves the batching invariant, never panics, and advances the cursors by exactly the number of entries counted as processed in the window. -/
theorem scanGo_inv {gpu_images : List (Nat × GpuImage)} {extracted : ExtractedSprites}
    (H : ∀ p ∈ extracted.masks, (getGpu gpu_images p.2.image_handle_id).isSome = true) :
    ∀ (remaining : Nat) {idx : Nat} {fr0 : FrameState} {st : PhaseState},
    ScanInv gpu_images fr0 st →
    ∃ ps, scanGo gpu_images extracted st idx remaining = some ps
      ∧ ScanInv gpu_images fr0 ps
      ∧ ps.frame.unmasked_index + ps.frame.masked_index
          = st.frame.unmasked_index + st.frame.masked_index
            + claimProcessedFrom gpu_images extracted st.items idx remaining
      ∧ ps.items.map (fun it => it.entity) = st.items.map (fun it => it.entity)
  | 0, idx, fr0, st, hInv =>
    ⟨st, rfl, hInv, by rw [claimProcessedFrom]; omega, rfl⟩
  | remaining + 1, idx, fr0, st, hInv => by
    obtain ⟨st1, hstep, hInv1, hcount1, hent1⟩ := @scanItem_inv gpu_images extracted H fr0 st idx hInv
    obtain ⟨ps, hgo, hInv2, hcount2, hent2⟩ := @scanGo_inv gpu_images extracted H remaining (idx + 1) fr0 st1 hInv1
    refine ⟨ps, ?_, hInv2, ?_, by rw [hent2, hent1]⟩
    · simp only [scanGo, hstep, hgo]
    · have hcp := @claimProcessedFrom_congr gpu_images extracted st1.items st.items hent1 remaining (idx + 1)
      rw [claimProcessedFrom]
      omega


/-- The batching invariant holds at the top of a view pass: no new batches, an invalid tracked image identity, untouched buffers and cursors. -/
theorem scanInv_init (gpu_images : List (Nat × GpuImage)) (frame : FrameState)
    (items : List PhaseItem) : ScanInv gpu_images frame (phaseInit frame items) := by
  refine ⟨[], rfl, rfl, rfl, by simp, rfl, ?_, ?_, rfl, rfl⟩
  · intro a ha
    cases ha
  · intro a ha
    cases ha


/-- Consecutive tilings concatenate. -/
theorem chainFwd_append {lo mid hi : Nat} :
    ∀ {xs ys : List (Nat × Nat)}, chainFwd lo xs mid → chainFwd mid ys hi →
    chainFwd lo (xs ++ ys) hi
  | [], ys, h1, h2 => by
    have : lo = mid := h1
    rw [List.nil_append, this]
    exact h2
  | (s, e) :: xs, ys, h1, h2 => by
    obtain ⟨hs, hse, hrest⟩ := h1
    exact ⟨hs, hse, chainFwd_append hrest h2⟩


/-- A newest-first tiling read oldest-first is a forward tiling. -/
theorem revChain_reverse {lo : Nat} :
    ∀ {rs : List (Nat × Nat)} {hi : Nat}, revChain lo rs hi → chainFwd lo rs.reverse hi
  | [], hi, h => by
    have : hi = lo := h
    rw [this]
    exact rfl
  | (s, e) :: rest, hi, h => by
    obtain ⟨he, hse, hrest⟩ := h
    have h1 : chainFwd lo rest.reverse s := revChain_reverse hrest
    have h2 : chainFwd s [(s, e)] hi := ⟨rfl, hse, he⟩
    rw [List.reverse_cons]
    exact chainFwd_append h1 h2


/-- A forward tiling runs upward. -/
theorem chainFwd_le : ∀ {rs : List (Nat × Nat)} {lo hi : Nat},
    chainFwd lo rs hi → lo ≤ hi
  | [], lo, hi, h => Nat.le_of_eq h
  | (s, e) :: rest, lo, hi, h => by
    obtain ⟨hs, hse, hrest⟩ := h
    have := chainFwd_le hrest
    omega


/-- Every range of a forward tiling lies inside the tiled interval. -/
theorem chainFwd_bounds : ∀ {rs : List (Nat × Nat)} {lo hi : Nat},
    chainFwd lo rs hi → ∀ r ∈ rs, lo ≤ r.1 ∧ r.1 ≤ r.2 ∧ r.2 ≤ hi
  | [], lo, hi, h => by simp
  | (s, e) :: rest, lo, hi, h => by
    obtain ⟨hs, hse, hrest⟩ := h
    intro r hr
    rcases List.mem_cons.mp hr with hr | hr
    · rw [hr]
      have := chainFwd_le hrest
      omega
    · have := chainFwd_bounds hrest r hr
      omega


/-- The ranges of a forward tiling are ordered, hence pairwise non-overlapping. -/
theorem chainFwd_pairwise : ∀ {rs : List (Nat × Nat)} {lo hi : Nat},
    chainFwd lo rs hi → nonoverlapping rs
  | [], lo, hi, h => List.Pairwise.nil
  | (s, e) :: rest, lo, hi, h => by
    obtain ⟨hs, hse, hrest⟩ := h
    exact List.Pairwise.cons
      (fun r hr => ((chainFwd_bounds hrest r hr).1))
      (chainFwd_pairwise hrest)


/-- Every index of the tiled interval is covered by exactly one range of a forward tiling. -/
theorem chainFwd_coversOnce : ∀ {rs : List (Nat × Nat)} {lo hi : Nat},
    chainFwd lo rs hi → ∀ k, lo ≤ k → k < hi → coversOnce rs k
  | [], lo, hi, h, k, hk1, hk2 => by
    have : lo = hi := h
    omega
  | (s, e) :: rest, lo, hi, h, k, hk1, hk2 => by
    obtain ⟨hs, hse, hrest⟩ := h
    unfold coversOnce
    rw [List.countP_cons]
    by_cases hk : k < e
    · have hpred : decide ((s, e).1 ≤ k ∧ k < (s, e).2) = true := by
        simp only [decide_eq_true_eq]
        exact ⟨by omega, hk⟩
      rw [hpred]
      have hzero : (rest.countP (fun r => decide (r.1 ≤ k ∧ k < r.2))) = 0 := by
        rw [List.countP_eq_zero]
        intro r hr
        have := (chainFwd_bounds hrest r hr).1
        simp only [decide_eq_true_eq]
        omega
      rw [hzero]
      simp
    · have hpred : decide ((s, e).1 ≤ k ∧ k < (s, e).2) = false := by
        simp only [decide_eq_false_iff_not]
        omega
      rw [hpred]
      have hrec := chainFwd_coversOnce hrest k (by omega) hk2
      unfold coversOnce at hrec
      have h0 : (if (false = true) then 1 else 0) = 0 := by simp
      omega


/-- The lengths of the ranges of a forward tiling sum to the length of the tiled interval. -/
theorem chainFwd_sum : ∀ {rs : List (Nat × Nat)} {lo hi : Nat},
    chainFwd lo rs hi → ((rs.map (fun r => r.2 - r.1)).sum) + lo = hi
  | [], lo, hi, h => by
    have : lo = hi := h
    simp [this]
  | (s, e) :: rest, lo, hi, h => by
    obtain ⟨hs, hse, hrest⟩ := h
    have := chainFwd_sum hrest
    simp only [List.map_cons, List.sum_cons]
    omega


/-- Reading the batch list in production order reverses each buffer's range list. -/
theorem bufferRanges_reverse (bs : List (Nat × SpriteBatch)) (m : Bool) :
    bufferRanges bs.reverse m = (bufferRanges bs m).reverse := by
  simp [bufferRanges, List.filter_reverse, List.map_reverse]


/-- Emitting an instance record does not touch the batch list. -/
theorem emitStep_batches (st2 : PhaseState) (sp : ExtractedSprite)
    (em : Option ExtractedSpriteMask) :
    (emitStep st2 sp em).1.frame.batchesRev = st2.frame.batchesRev := by
  cases em <;> rfl


/-- A successful `finishItem` grows the batch list by one exactly when the image or mask identity changed, else leaves its length unchanged. -/
theorem finishItem_length {st : PhaseState} {e i : Nat} {bic bmc : Bool}
    {ma : Option Nat} {x : Nat} {m : Bool} {st' : PhaseState}
    (h : finishItem st e i bic bmc ma x m = some st') :
    st'.frame.batchesRev.length
      = st.frame.batchesRev.length + cond (bic || bmc) 1 0 := by
  cases hp : (bic || bmc) with
  | false =>
    cases hb : st.frame.batchesRev with
    | nil =>
      rw [finishItem_spec_panic _ _ _ _ _ _ _ _ hp hb] at h
      cases h
    | cons b bs =>
      rw [finishItem_spec_extend _ _ _ _ _ _ _ _ hp b bs hb] at h
      cases h
      simp [hb]
  | true =>
    rw [finishItem_spec_push _ _ _ _ _ _ _ _ hp] at h
    cases h
    simp

/-- C2 (corrected): over one view's batching pass in which every extracted
mask's texture is resolvable, the pass completes and the batches it adds
tile each instance buffer's cursor interval consecutively: read in
production order their ranges are contiguous, pairwise non-overlapping and
nonempty, they cover every instance index the pass emitted exactly once,
and their lengths sum to the number of entries counted as successfully
processed (non-sprite items and entries whose sprite texture is
unresolvable are skipped), with each instance buffer growing in lockstep
with its cursor.  Moreover a non-sprite phase item invalidates the tracked
image identity, forcing a boundary without producing a batch, and an entry
that emits an instance opens a new batch exactly when the tracked image
identity or the tracked mask identity changed.  Without the resolvability
hypothesis the coverage part of the claim is false, because an entry whose
sprite texture resolves but whose applicable mask's texture does not is
dropped after being counted (see the counterexample). -/
theorem c2_batching_amended :
    (∀ (gpu_images : List (Nat × GpuImage)) (extracted : ExtractedSprites),
      (∀ p ∈ extracted.masks, (getGpu gpu_images p.2.image_handle_id).isSome = true) →
      ∀ (frame : FrameState) (items : List PhaseItem),
      ∃ ps newRev,
        scanPhase gpu_images extracted frame items = some ps
        ∧ ps.frame.batchesRev = newRev ++ frame.batchesRev
        ∧ chainFwd frame.unmasked_index (bufferRanges newRev.reverse false)
            ps.frame.unmasked_index
        ∧ chainFwd frame.masked_index (bufferRanges newRev.reverse true)
            ps.frame.masked_index
        ∧ nonoverlapping (bufferRanges newRev.reverse false)
        ∧ nonoverlapping (bufferRanges newRev.reverse true)
        ∧ (∀ b ∈ newRev.reverse, b.2.range.1 < b.2.range.2)
        ∧ (∀ k, frame.unmasked_index ≤ k → k < ps.frame.unmasked_index →
            coversOnce (bufferRanges newRev.reverse false) k)
        ∧ (∀ k, frame.masked_index ≤ k → k < ps.frame.masked_index →
            coversOnce (bufferRanges newRev.reverse true) k)
        ∧ ((bufferRanges newRev.reverse false).map (fun r => r.2 - r.1)).sum
              + frame.unmasked_index = ps.frame.unmasked_index
        ∧ ((bufferRanges newRev.reverse true).map (fun r => r.2 - r.1)).sum
              + frame.masked_index = ps.frame.masked_index
        ∧ ps.frame.unmasked_index + ps.frame.masked_index
            = frame.unmasked_index + frame.masked_index
              + claimProcessedFrom gpu_images extracted items 0 items.length
        ∧ ps.frame.meta.sprite_instance_buffer.length + frame.unmasked_index
            = frame.meta.sprite_instance_buffer.length + ps.frame.unmasked_index
        ∧ ps.frame.meta.masked_sprite_instance_buffer.length + frame.masked_index
            = frame.meta.masked_sprite_instance_buffer.length + ps.frame.masked_index)
    ∧ (∀ (gpu_images : List (Nat × GpuImage)) (extracted : ExtractedSprites)
        (st : PhaseState) (idx : Nat) (item : PhaseItem),
        st.items.get? idx = some item →
        lookupEntity extracted.sprites item.entity = none →
        scanItem gpu_images extracted st idx = some { st with batch_image_handle := none })
    ∧ (∀ (gpu_images : List (Nat × GpuImage)) (extracted : ExtractedSprites)
        (st : PhaseState) (idx : Nat) (item : PhaseItem) (sp : ExtractedSprite)
        (st' : PhaseState),
        st.items.get? idx = some item →
        lookupEntity extracted.sprites item.entity = some sp →
        scanItem gpu_images extracted st idx = some st' →
        st'.frame.unmasked_index + st'.frame.masked_index
          = st.frame.unmasked_index + st.frame.masked_index + 1 →
        (st'.frame.batchesRev.length = st.frame.batchesRev.length + 1
          ↔ (st.batch_image_handle ≠ some sp.image_handle_id
              ∨ st.batch_mask_handle
                  ≠ (findFirstMask extracted.masks sp.order).map
                      (fun mv => mv.image_handle_id)))) := by
  refine ⟨?_, ?_, ?_⟩
  · intro gpu_images extracted H frame items
    obtain ⟨ps, hgo, hInv, hcount, -⟩ :=
      @scanGo_inv gpu_images extracted H items.length 0 frame (phaseInit frame items)
        (scanInv_init gpu_images frame items)
    obtain ⟨newRev, hdec, hcu, hcm, hne, -, -, -, hlku, hlkm⟩ := hInv
    have hfu : chainFwd frame.unmasked_index (bufferRanges newRev.reverse false)
        ps.frame.unmasked_index := by
      rw [bufferRanges_reverse]
      exact revChain_reverse hcu
    have hfm : chainFwd frame.masked_index (bufferRanges newRev.reverse true)
        ps.frame.masked_index := by
      rw [bufferRanges_reverse]
      exact revChain_reverse hcm
    refine ⟨ps, newRev, hgo, hdec, hfu, hfm, chainFwd_pairwise hfu, chainFwd_pairwise hfm,
      ?_, chainFwd_coversOnce hfu, chainFwd_coversOnce hfm,
      chainFwd_sum hfu, chainFwd_sum hfm, hcount, hlku, hlkm⟩
    intro b hb
    exact hne b (List.mem_reverse.mp hb)
  · intro gpu_images extracted st idx item hget hsp
    simp only [scanItem, hget, hsp]
  · intro gpu_images extracted st idx item sp st' hget hsp h hemit
    simp only [scanItem, hget, hsp] at h
    split at h
    · cases h
      exact absurd hemit (by omega)
    · next st1 hi =>
      split at h
      · cases h
        obtain ⟨hf1, -, -, -⟩ := imageStep_basic hi
        rw [hf1] at hemit
        exact absurd hemit (by omega)
      · next st2 hmk =>
        obtain ⟨hf1, -, hmh1, -⟩ := imageStep_basic hi
        obtain ⟨hf2, -, -, -⟩ := maskStep_basic hmk
        rcases hes : emitStep st2 sp (findFirstMask extracted.masks sp.order)
          with ⟨st3, index, masked⟩
        rw [hes] at h
        simp only [] at h
        have hlen := finishItem_length h
        have hb3 : st3.frame.batchesRev = st2.frame.batchesRev := by
          have hq := emitStep_batches st2 sp (findFirstMask extracted.masks sp.order)
          rw [hes] at hq
          exact hq
        rw [hb3, hf2, hf1] at hlen
        cases hpush : (decide (st.batch_image_handle ≠ some sp.image_handle_id)
            || decide (st1.batch_mask_handle
                ≠ Option.map (fun mv => mv.image_handle_id)
                    (findFirstMask extracted.masks sp.order))) with
        | true =>
          rw [hpush] at hlen
          simp only [Bool.cond_true] at hlen
          refine iff_of_true hlen ?_
          have hp2 := hpush
          simp only [Bool.or_eq_true, decide_eq_true_eq] at hp2
          rcases hp2 with h1 | h1
          · exact Or.inl h1
          · rw [hmh1] at h1
            exact Or.inr h1
        | false =>
          rw [hpush] at hlen
          simp only [Bool.cond_false, Nat.add_zero] at hlen
          have hor := Bool.or_eq_false_iff.mp hpush
          have h1 := of_decide_eq_false hor.1
          have h2 := of_decide_eq_false hor.2
          rw [hmh1] at h2
          refine iff_of_false ?_ (not_or.mpr ⟨h1, h2⟩)
          omega

/-- C2, counterexample to the unamended claim: in the C2 scene the entry
of entity 2 has a resolvable sprite texture, so the claim counts it as
successfully processed, but its applicable mask's texture is unresolvable
and the scan drops the whole entry, so the produced batch ranges cover two
instance slots while three entries were counted: the ranges do not cover
every successfully-processed entry. -/
theorem c2_counterexample : c2CoverageHolds gpuC2 extractedC2 itemsC2 = false := by decide

/-- C2 witness: the amended claim evaluated on the single-sprite C9 view
pass (all of that scene's masks - there are none - are resolvable), on a
non-sprite phase item, and on the emitting first scan step of that pass. -/
theorem c2_batching_amended_witness :
    (∀ p ∈ extractedC9.masks, (getGpu gpuC9 p.2.image_handle_id).isSome = true)
    ∧ (∃ ps newRev,
        scanPhase gpuC9 extractedC9 frameInit itemsC9a = some ps
        ∧ ps.frame.batchesRev = newRev ++ frameInit.batchesRev
        ∧ chainFwd frameInit.unmasked_index (bufferRanges newRev.reverse false)
            ps.frame.unmasked_index
        ∧ chainFwd frameInit.masked_index (bufferRanges newRev.reverse true)
            ps.frame.masked_index
        ∧ nonoverlapping (bufferRanges newRev.reverse false)
        ∧ nonoverlapping (bufferRanges newRev.reverse true)
        ∧ (∀ b ∈ newRev.reverse, b.2.range.1 < b.2.range.2)
        ∧ (∀ k, frameInit.unmasked_index ≤ k → k < ps.frame.unmasked_index →
            coversOnce (bufferRanges newRev.reverse false) k)
        ∧ (∀ k, frameInit.masked_index ≤ k → k < ps.frame.masked_index →
            coversOnce (bufferRanges newRev.reverse true) k)
        ∧ ((bufferRanges newRev.reverse false).map (fun r => r.2 - r.1)).sum
              + frameInit.unmasked_index = ps.frame.unmasked_index
        ∧ ((bufferRanges newRev.reverse true).map (fun r => r.2 - r.1)).sum
              + frameInit.masked_index = ps.frame.masked_index
        ∧ ps.frame.unmasked_index + ps.frame.masked_index
            = frameInit.unmasked_index + frameInit.masked_index
              + claimProcessedFrom gpuC9 extractedC9 itemsC9a 0 itemsC9a.length
        ∧ ps.frame.meta.sprite_instance_buffer.length + frameInit.unmasked_index
            = frameInit.meta.sprite_instance_buffer.length + ps.frame.unmasked_index
        ∧ ps.frame.meta.masked_sprite_instance_buffer.length + frameInit.masked_index
            = frameInit.meta.masked_sprite_instance_buffer.length + ps.frame.masked_index)
    ∧ scanItem gpuC9 extractedC9 (phaseInit frameInit itemsC2w) 0
        = some { phaseInit frameInit itemsC2w with batch_image_handle := none }
    ∧ (psC2w.frame.batchesRev.length
          = (phaseInit frameInit itemsC9a).frame.batchesRev.length + 1
        ↔ ((phaseInit frameInit itemsC9a).batch_image_handle
              ≠ some (mkSprite 10 1).image_handle_id
            ∨ (phaseInit frameInit itemsC9a).batch_mask_handle
                ≠ (findFirstMask extractedC9.masks (mkSprite 10 1).order).map
                    (fun mv => mv.image_handle_id))) :=
  ⟨by decide,
   c2_batching_amended.1 gpuC9 extractedC9 (by decide) frameInit itemsC9a,
   c2_batching_amended.2.1 gpuC9 extractedC9 (phaseInit frameInit itemsC2w) 0
     ⟨99, (0, 0)⟩ rfl rfl,
   c2_batching_amended.2.2 gpuC9 extractedC9 (phaseInit frameInit itemsC9a) 0
     ⟨1, (0, 0)⟩ (mkSprite 10 1) psC2w rfl rfl rfl (by decide)⟩

end BevySpriteEx
